import Mathlib

/-!
Shallow embedding of the ozz-animation motion samples
(`samples/motion_extraction/sample_motion_extraction.cc` and
`samples/motion_playback/sample_motion_playback.cc`).

The two source files are thin orchestration layers over external
collaborators (the offline motion extractor, track/animation optimizers and
builders, the runtime sampling jobs, the playback controller and the motion
accumulator from the sample framework).  Those collaborators are not part of
the two source files; the embedding keeps them abstract as oracle functions
packaged in environment structures, while the control flow of the sample
methods (`ExtractMotion`, `OnUpdate`, `OnInitialize`, `OnGui`) is translated
statement by statement.

Scalar values that the samples merely route between collaborators (floats,
vectors, quaternions) are modelled over `Int`/`Rat`; runtime objects produced
by collaborators (raw tracks, raw animations, runtime tracks) are opaque
handles.  Matrix expressions are modelled as the free term algebra generated
by the matrix operations the samples use, so that equalities between the
matrices a sample builds are syntactic and decidable.
-/

namespace Ozz

/-- `ozz::math::Float3`, modelled with integer components (the samples never
compute with the components, they only route them). -/
structure Float3 where
  x : Int
  y : Int
  z : Int
deriving DecidableEq

/-- `ozz::math::Float3::zero()`. -/
def Float3.zero : Float3 := ⟨0, 0, 0⟩

/-- `ozz::math::Quaternion`. -/
structure Quaternion where
  x : Int
  y : Int
  z : Int
  w : Int
deriving DecidableEq

/-- `ozz::math::Quaternion::identity()`. -/
def Quaternion.identity : Quaternion := ⟨0, 0, 0, 1⟩

/-- `ozz::math::Float4x4`, as the free term algebra of the matrix operations
used by the two samples: equality of modelled matrices is equality of the
expressions the samples build. -/
inductive Float4x4 where
  | identity : Float4x4
  | mul (a b : Float4x4) : Float4x4
  | translation (v : Float3) : Float4x4
  | fromQuaternion (q : Quaternion) : Float4x4
  | fromAffine (t : Float3) (r : Quaternion) (s : Float3) : Float4x4
deriving DecidableEq

/-- `ozz::math::Transform` (affine decomposition used by the accumulator). -/
structure Transform where
  translation : Float3
  rotation : Quaternion
  scale : Float3
deriving DecidableEq

/-- `ozz::math::Transform::identity()`. -/
def Transform.identity : Transform :=
  ⟨Float3.zero, Quaternion.identity, ⟨1, 1, 1⟩⟩

/-- `ozz::math::SoaTransform`: opaque handle (contents never inspected by the
samples). -/
structure SoaTransform where
  id : Nat
deriving DecidableEq

/-- `ozz::animation::offline::RawFloat3Track`: opaque handle. -/
structure RawFloat3Track where
  id : Nat
deriving DecidableEq

/-- `ozz::animation::offline::RawQuaternionTrack`: opaque handle. -/
structure RawQuaternionTrack where
  id : Nat
deriving DecidableEq

/-- `ozz::animation::offline::RawAnimation`: opaque handle. -/
structure RawAnimation where
  id : Nat
deriving DecidableEq

/-- Runtime `ozz::animation::Float3Track`: opaque handle. -/
structure Float3Track where
  id : Nat
deriving DecidableEq

/-- Runtime `ozz::animation::QuaternionTrack`: opaque handle. -/
structure QuaternionTrack where
  id : Nat
deriving DecidableEq

/-- Runtime `ozz::animation::Animation`: opaque handle carrying the one
observable the samples query, `num_tracks()` (and a handle id so distinct
built animations are distinguishable). -/
structure Animation where
  id : Nat
  num_tracks : Nat
deriving DecidableEq

/-- `ozz::animation::Skeleton`: the samples query `num_joints()` and
`num_soa_joints()`. -/
structure Skeleton where
  num_joints : Nat
  num_soa_joints : Nat
deriving DecidableEq

/-- `ozz::sample::MotionTrack`: pair of runtime tracks. -/
structure MotionTrack where
  position : Float3Track
  rotation : QuaternionTrack
deriving DecidableEq

/-- `ozz::animation::SamplingJob::Context`: the samples only `Resize` and
`Invalidate` it; modelled by its size and an invalidation flag. -/
structure SamplingContext where
  size : Nat
  invalidated : Bool
deriving DecidableEq

/-- `Context::Resize(n)`. -/
def SamplingContext.Resize (n : Nat) : SamplingContext :=
  ⟨n, true⟩

/-- `Context::Invalidate()`. -/
def SamplingContext.Invalidate (c : SamplingContext) : SamplingContext :=
  ⟨c.size, true⟩

/-- `ozz::sample::PlaybackController`: the samples read `time_ratio()`;
everything else is opaque framework state. -/
structure PlaybackController where
  time_ratio : Rat
  opaque_state : Nat
deriving DecidableEq

/-- `ozz::sample::MotionAccumulator` (sample framework, not in the two source
files). Modelled from the spec: it maintains the accumulated transform read
back through `transform()`; its further internals are opaque. -/
structure MotionAccumulator where
  transform : Transform
  opaque_state : Nat
deriving DecidableEq

/-- `MotionAccumulator::Teleport`. Modelled from the spec: resets the
accumulated transform, discarding history. -/
def MotionAccumulator.Teleport (a : MotionAccumulator) (t : Transform) :
    MotionAccumulator :=
  ⟨t, a.opaque_state⟩

/-- `MotionExtractor::Reference` (`kAbsolute`, `kSkeleton`, `kAnimation`). -/
inductive Reference where
  | kAbsolute : Reference
  | kSkeleton : Reference
  | kAnimation : Reference
deriving DecidableEq

/-- `static_cast<int>(reference)`. -/
def Reference.toInt : Reference → Int
  | .kAbsolute => 0
  | .kSkeleton => 1
  | .kAnimation => 2

/-- Per-channel `MotionExtractor::Settings`: axis components, reference,
bake and loop flags. -/
structure Settings where
  x : Bool
  y : Bool
  z : Bool
  reference : Reference
  bake : Bool
  loop : Bool
deriving DecidableEq

/-- `ozz::animation::offline::MotionExtractor` configuration state as held by
the sample (its extraction algorithm itself is an external collaborator). -/
structure MotionExtractor where
  position_settings : Settings
  rotation_settings : Settings
deriving DecidableEq

/-! External collaborators of `sample_motion_extraction.cc`, kept abstract as
oracle functions: the sample only observes their success/failure and routes
their outputs. -/

/-- Environment of `MotionSampleApplication` (motion_extraction sample). -/
structure ExtractionSampleEnv where
  /-- `ozz::sample::LoadSkeleton` at the fixed option path. -/
  loadSkeleton : Option Skeleton
  /-- `ozz::sample::LoadRawAnimation` at the fixed option path. -/
  loadRawAnimation : Option RawAnimation
  /-- `motion_extractor_(raw_animation, skeleton, &pos, &rot, &baked)`:
  the offline extraction pass, driven by the extractor's settings. -/
  motionExtractorRun : MotionExtractor → RawAnimation → Skeleton →
    Option (RawFloat3Track × RawQuaternionTrack × RawAnimation)
  /-- `TrackOptimizer::operator()` on a float3 track. -/
  trackOptimizerF3 : RawFloat3Track → Option RawFloat3Track
  /-- `TrackOptimizer::operator()` on a quaternion track. -/
  trackOptimizerQuat : RawQuaternionTrack → Option RawQuaternionTrack
  /-- `TrackBuilder::operator()` on a float3 track. -/
  trackBuilderF3 : RawFloat3Track → Option Float3Track
  /-- `TrackBuilder::operator()` on a quaternion track. -/
  trackBuilderQuat : RawQuaternionTrack → Option QuaternionTrack
  /-- `AnimationOptimizer::operator()`. -/
  animOptimizerRun : RawAnimation → Skeleton → Option RawAnimation
  /-- `AnimationBuilder::operator()`. -/
  animBuilderRun : RawAnimation → Option Animation
  /-- `PlaybackController::Update(animation, dt)`: returns the loop count and
  the updated controller (whose `time_ratio` advanced). -/
  controllerUpdate : PlaybackController → Animation → Rat →
    Int × PlaybackController
  /-- `Float3TrackSamplingJob::Run()` (track, ratio). -/
  float3TrackSample : Float3Track → Rat → Option Float3
  /-- `QuaternionTrackSamplingJob::Run()` (track, ratio). -/
  quatTrackSample : QuaternionTrack → Rat → Option Quaternion
  /-- `SamplingJob::Run()` (animation, context, ratio, output span size);
  on success yields the sampled local transforms. -/
  samplingJobRun : Animation → SamplingContext → Rat → Nat →
    Option (List SoaTransform)
  /-- `LocalToModelJob::Run()` (skeleton, input, output span size). -/
  localToModelRun : Skeleton → List SoaTransform → Nat →
    Option (List Float4x4)

/-- Member state of `MotionSampleApplication`
(sample_motion_extraction.cc, lines 353-387). -/
structure MotionState where
  controller_ : PlaybackController
  motion_extractor_ : MotionExtractor
  skeleton_ : Skeleton
  raw_animation_ : RawAnimation
  animation_ : Animation
  motion_track_ : MotionTrack
  context_ : SamplingContext
  transform_ : Float4x4
  locals_ : List SoaTransform
  models_ : List Float4x4
  apply_motion_position_ : Bool
  apply_motion_rotation_ : Bool
deriving DecidableEq

namespace MotionSampleApplication

/-- `MotionSampleApplication::ExtractMotion`
(sample_motion_extraction.cc, lines 157-209), as a state transformer
returning the C++ `bool` result together with the member state after the
call.  The motion tracks are assigned as soon as both runtime tracks are
built (lines 186-187), before the animation optimization/build block. -/
def ExtractMotion (env : ExtractionSampleEnv) (s : MotionState) :
    Bool × MotionState :=
  match env.motionExtractorRun s.motion_extractor_ s.raw_animation_
      s.skeleton_ with
  | none => (false, s)
  | some (raw_motion_position, raw_motion_rotation, baked_animation) =>
    match env.trackOptimizerF3 raw_motion_position with
    | none => (false, s)
    | some raw_track_position_opt =>
      match env.trackOptimizerQuat raw_motion_rotation with
      | none => (false, s)
      | some raw_track_rotation_opt =>
        match env.trackBuilderF3 raw_track_position_opt,
            env.trackBuilderQuat raw_track_rotation_opt with
        | some position_track, some rotation_track =>
          let s1 : MotionState :=
            { s with motion_track_ := ⟨position_track, rotation_track⟩ }
          match env.animOptimizerRun baked_animation s1.skeleton_ with
          | none => (false, s1)
          | some baked_animation_opt =>
            match env.animBuilderRun baked_animation_opt with
            | none => (false, s1)
            | some anim =>
              (true, { s1 with animation_ := anim,
                               context_ := s1.context_.Invalidate })
        | _, _ => (false, s)

/-- Tail of `MotionSampleApplication::OnUpdate` from line 115: pose sampling
into `locals_` then local-to-model conversion into `models_`. -/
def OnUpdateAnim (env : ExtractionSampleEnv) (s : MotionState) :
    Bool × MotionState :=
  match env.samplingJobRun s.animation_ s.context_ s.controller_.time_ratio
      s.locals_.length with
  | none => (false, s)
  | some locals =>
    let s1 : MotionState := { s with locals_ := locals }
    match env.localToModelRun s1.skeleton_ s1.locals_ s1.models_.length with
    | none => (false, s1)
    | some models => (true, { s1 with models_ := models })

/-- `MotionSampleApplication::OnUpdate` rotation step (lines 96-109). -/
def OnUpdateRotation (env : ExtractionSampleEnv) (s : MotionState) :
    Bool × MotionState :=
  if s.apply_motion_rotation_ then
    match env.quatTrackSample s.motion_track_.rotation
        s.controller_.time_ratio with
    | none => (false, s)
    | some rotation =>
      OnUpdateAnim env
        { s with transform_ :=
            s.transform_.mul (Float4x4.fromQuaternion rotation) }
  else OnUpdateAnim env s

/-- `MotionSampleApplication::OnUpdate` position step (lines 81-93). -/
def OnUpdatePosition (env : ExtractionSampleEnv) (s : MotionState) :
    Bool × MotionState :=
  if s.apply_motion_position_ then
    match env.float3TrackSample s.motion_track_.position
        s.controller_.time_ratio with
    | none => (false, s)
    | some position =>
      OnUpdateRotation env
        { s with transform_ :=
            s.transform_.mul (Float4x4.translation position) }
  else OnUpdateRotation env s

/-- `MotionSampleApplication::OnUpdate`
(sample_motion_extraction.cc, lines 70-134): updates the controller
(discarding the loop count), resets `transform_` to identity, then runs the
position, rotation, pose-sampling and local-to-model steps in order. -/
def OnUpdate (env : ExtractionSampleEnv) (s : MotionState) (_dt : Rat) :
    Bool × MotionState :=
  let controller := (env.controllerUpdate s.controller_ s.animation_ _dt).snd
  OnUpdatePosition env
    { s with controller_ := controller, transform_ := Float4x4.identity }

end MotionSampleApplication

/-- Modelled from the spec: the in-class default member initializer of the
`loop` flag of `MotionExtractor::Settings` is declared in the ozz library
headers, which are not among the two source files; the braced initializers at
sample_motion_extraction.cc lines 223-232 list only the components, reference
and bake flag, leaving `loop` at that library default.  Its value plays no
role in the properties proved here. -/
def Settings.loopDefault : Bool := false

/-- Default `SoaTransform` used to model `ozz::vector::resize` growth (only
the resulting buffer size is ever observed by the samples). -/
def SoaTransform.default : SoaTransform := ⟨0⟩

namespace MotionSampleApplication

/-- State of `MotionSampleApplication` after the two loads and the default
extraction settings of `OnInitialize`
(sample_motion_extraction.cc, lines 213-232) have been applied. -/
def loadedState (s : MotionState) (skeleton : Skeleton)
    (raw : RawAnimation) : MotionState :=
  { s with
    skeleton_ := skeleton,
    raw_animation_ := raw,
    motion_extractor_ :=
      { position_settings :=
          ⟨true, true, true, .kAbsolute, true, Settings.loopDefault⟩,
        rotation_settings :=
          ⟨false, true, false, .kAbsolute, true, Settings.loopDefault⟩ } }

/-- `MotionSampleApplication::OnInitialize`
(sample_motion_extraction.cc, lines 211-253): loads the skeleton and raw
animation, installs the sample's default extraction settings, runs
`ExtractMotion`, checks the skeleton/animation joint-count match, and only
then allocates `locals_`, `models_` and resizes the sampling context. -/
def OnInitialize (env : ExtractionSampleEnv) (s : MotionState) :
    Bool × MotionState :=
  match env.loadSkeleton with
  | none => (false, s)
  | some skeleton =>
    match env.loadRawAnimation with
    | none => (false, { s with skeleton_ := skeleton })
    | some raw =>
      match ExtractMotion env (loadedState s skeleton raw) with
      | (false, s3) => (false, s3)
      | (true, s3) =>
        if s3.skeleton_.num_joints ≠ s3.animation_.num_tracks then (false, s3)
        else
          (true,
           { s3 with
             locals_ := List.replicate s3.skeleton_.num_soa_joints
               SoaTransform.default,
             models_ := List.replicate s3.skeleton_.num_joints
               Float4x4.identity,
             context_ := SamplingContext.Resize s3.skeleton_.num_joints })

end MotionSampleApplication

/-- Modelled from the spec (framework `ImGui::DoCheckBox`, not among the two
source files): the configuration surface reports whether the value was
written; a click toggles the boolean and reports a modification.  Returns
(new value, modified). -/
def DoCheckBox (clicked : Bool) (v : Bool) : Bool × Bool :=
  if clicked then (!v, true) else (v, false)

/-- Modelled from the spec (framework `ImGui::DoRadioButton` triple over one
`int` reference cell, not among the two source files): clicking entry `r`
writes `r` into the cell; the surface reports whether the value was
modified.  Returns (new value, modified). -/
def DoRadioGroup (clicked : Option Reference) (v : Reference) :
    Reference × Bool :=
  match clicked with
  | none => (v, false)
  | some r => (r, decide (r ≠ v))

/-- One frame of user interaction with the extraction sample's GUI
(sample_motion_extraction.cc, lines 257-347). -/
structure GuiInput where
  /-- Effect of `controller_.OnGui` (framework code): arbitrary update to the
  playback controller. -/
  controllerInteraction : PlaybackController → PlaybackController
  /-- `Animation control` section open flag. -/
  animationControlOpen : Bool
  clickPosX : Bool
  clickPosY : Bool
  clickPosZ : Bool
  clickPosReference : Option Reference
  clickPosBake : Bool
  clickPosLoop : Bool
  clickRotX : Bool
  clickRotY : Bool
  clickRotZ : Bool
  clickRotReference : Option Reference
  clickRotBake : Bool
  clickRotLoop : Bool
  /-- `Motion control` section open flag. -/
  motionControlOpen : Bool
  clickUsePosition : Bool
  clickUseRotation : Bool

namespace MotionSampleApplication

/-- The `Motion extraction` widget block of `MotionSampleApplication::OnGui`
(sample_motion_extraction.cc, lines 271-329): runs every settings widget,
accumulating `rebuild |= ...` over the twelve of them, and returns the
updated extractor settings together with the final `rebuild` flag. -/
def applySettingsWidgets (g : GuiInput) (me : MotionExtractor) :
    MotionExtractor × Bool :=
  let px := DoCheckBox g.clickPosX me.position_settings.x
  let py := DoCheckBox g.clickPosY me.position_settings.y
  let pz := DoCheckBox g.clickPosZ me.position_settings.z
  let pr := DoRadioGroup g.clickPosReference me.position_settings.reference
  let pb := DoCheckBox g.clickPosBake me.position_settings.bake
  let pl := DoCheckBox g.clickPosLoop me.position_settings.loop
  let rx := DoCheckBox g.clickRotX me.rotation_settings.x
  let ry := DoCheckBox g.clickRotY me.rotation_settings.y
  let rz := DoCheckBox g.clickRotZ me.rotation_settings.z
  let rr := DoRadioGroup g.clickRotReference me.rotation_settings.reference
  let rb := DoCheckBox g.clickRotBake me.rotation_settings.bake
  let rl := DoCheckBox g.clickRotLoop me.rotation_settings.loop
  (⟨⟨px.fst, py.fst, pz.fst, pr.fst, pb.fst, pl.fst⟩,
    ⟨rx.fst, ry.fst, rz.fst, rr.fst, rb.fst, rl.fst⟩⟩,
   px.snd || py.snd || pz.snd || pr.snd || pb.snd || pl.snd ||
   rx.snd || ry.snd || rz.snd || rr.snd || rb.snd || rl.snd)

/-- The `Animation control` block of `MotionSampleApplication::OnGui`
(sample_motion_extraction.cc, lines 259-265): the framework playback widgets
touch only the controller, and only when the section is open. -/
def guiControllerStep (g : GuiInput) (s : MotionState) : MotionState :=
  if g.animationControlOpen then
    { s with controller_ := g.controllerInteraction s.controller_ }
  else s

/-- The `Motion control` block of `MotionSampleApplication::OnGui`
(sample_motion_extraction.cc, lines 338-345): the two apply toggles, only
when the section is open. -/
def guiMotionControlStep (g : GuiInput) (s : MotionState) : MotionState :=
  if g.motionControlOpen then
    { s with
      apply_motion_position_ :=
        (DoCheckBox g.clickUsePosition s.apply_motion_position_).fst,
      apply_motion_rotation_ :=
        (DoCheckBox g.clickUseRotation s.apply_motion_rotation_).fst }
  else s

/-- `MotionSampleApplication::OnGui`
(sample_motion_extraction.cc, lines 257-347): playback controls, the twelve
extraction-settings widgets, `ExtractMotion` exactly when `rebuild` is set
(returning false if it fails), then the `Motion control` apply toggles. -/
def OnGui (env : ExtractionSampleEnv) (g : GuiInput) (s : MotionState) :
    Bool × MotionState :=
  let s0 := guiControllerStep g s
  let w := applySettingsWidgets g s0.motion_extractor_
  let s1 : MotionState := { s0 with motion_extractor_ := w.fst }
  let r := if w.snd then ExtractMotion env s1 else (true, s1)
  if w.snd && !r.fst then (false, r.snd)
  else (true, guiMotionControlStep g r.snd)

end MotionSampleApplication

/-! External collaborators of `sample_motion_playback.cc`. -/

/-- Environment of `MotionPlaybackSampleApplication` (motion_playback
sample). -/
structure PlaybackSampleEnv where
  /-- `ozz::sample::LoadSkeleton` at the fixed option path. -/
  loadSkeleton : Option Skeleton
  /-- `ozz::sample::LoadAnimation` at the fixed option path. -/
  loadAnimation : Option Animation
  /-- `ozz::sample::LoadMotionTrack` at the fixed option path: yields the
  position and rotation tracks. -/
  loadMotionTrack : Option (Float3Track × QuaternionTrack)
  /-- `PlaybackController::Update(animation, dt)`: loop count and updated
  controller. -/
  controllerUpdate : PlaybackController → Animation → Rat →
    Int × PlaybackController
  /-- `MotionAccumulator::Update(track, ratio, loops)` (sample framework):
  on success yields the updated accumulator. -/
  accumulatorUpdate : MotionAccumulator → MotionTrack → Rat → Int →
    Option MotionAccumulator
  /-- `SamplingJob::Run()`. -/
  samplingJobRun : Animation → SamplingContext → Rat → Nat →
    Option (List SoaTransform)
  /-- `LocalToModelJob::Run()`. -/
  localToModelRun : Skeleton → List SoaTransform → Nat →
    Option (List Float4x4)

/-- Member state of `MotionPlaybackSampleApplication`
(sample_motion_playback.cc, lines 198-233). -/
structure PlaybackState where
  controller_ : PlaybackController
  skeleton_ : Skeleton
  animation_ : Animation
  motion_track_ : MotionTrack
  motion_accumulator_ : MotionAccumulator
  transform_ : Float4x4
  context_ : SamplingContext
  locals_ : List SoaTransform
  models_ : List Float4x4
  show_box_ : Bool
  show_motion_ : Bool
  apply_motion_position_ : Bool
  apply_motion_rotation_ : Bool
deriving DecidableEq

namespace MotionPlaybackSampleApplication

/-- `MotionPlaybackSampleApplication::OnUpdate`
(sample_motion_playback.cc, lines 64-109): advances the controller keeping
the loop count, updates the motion accumulator at the new time ratio with
that loop count, composes `transform_` from the accumulated transform and
the apply toggles, then samples the pose and converts it to model space. -/
def OnUpdate (env : PlaybackSampleEnv) (s : PlaybackState) (_dt : Rat) :
    Bool × PlaybackState :=
  let r := env.controllerUpdate s.controller_ s.animation_ _dt
  let loops := r.fst
  let s1 : PlaybackState := { s with controller_ := r.snd }
  match env.accumulatorUpdate s1.motion_accumulator_ s1.motion_track_
      s1.controller_.time_ratio loops with
  | none => (false, s1)
  | some accumulator =>
    let transform := accumulator.transform
    let s2 : PlaybackState :=
      { s1 with
        motion_accumulator_ := accumulator,
        transform_ := Float4x4.fromAffine
          (if s1.apply_motion_position_ then transform.translation
           else Float3.zero)
          (if s1.apply_motion_rotation_ then transform.rotation
           else Quaternion.identity)
          transform.scale }
    match env.samplingJobRun s2.animation_ s2.context_
        s2.controller_.time_ratio s2.locals_.length with
    | none => (false, s2)
    | some locals =>
      let s3 : PlaybackState := { s2 with locals_ := locals }
      match env.localToModelRun s3.skeleton_ s3.locals_ s3.models_.length with
      | none => (false, s3)
      | some models => (true, { s3 with models_ := models })

/-- `MotionPlaybackSampleApplication::OnInitialize`
(sample_motion_playback.cc, lines 131-163): loads skeleton, animation and
motion tracks, checks the joint-count match, and only then allocates the
runtime buffers and sizes the sampling context. -/
def OnInitialize (env : PlaybackSampleEnv) (s : PlaybackState) :
    Bool × PlaybackState :=
  match env.loadSkeleton with
  | none => (false, s)
  | some skeleton =>
    let s1 : PlaybackState := { s with skeleton_ := skeleton }
    match env.loadAnimation with
    | none => (false, s1)
    | some animation =>
      let s2 : PlaybackState := { s1 with animation_ := animation }
      match env.loadMotionTrack with
      | none => (false, s2)
      | some tracks =>
        let s3 : PlaybackState :=
          { s2 with motion_track_ := ⟨tracks.fst, tracks.snd⟩ }
        if s3.skeleton_.num_joints ≠ s3.animation_.num_tracks then
          (false, s3)
        else
          (true,
           { s3 with
             locals_ := List.replicate s3.skeleton_.num_soa_joints
               SoaTransform.default,
             models_ := List.replicate s3.skeleton_.num_joints
               Float4x4.identity,
             context_ := SamplingContext.Resize s3.skeleton_.num_joints })

end MotionPlaybackSampleApplication

/-- One frame of user interaction with the playback sample's GUI
(sample_motion_playback.cc, lines 167-192). -/
structure PlaybackGuiInput where
  /-- Effect of `controller_.OnGui` (framework code). -/
  controllerInteraction : PlaybackController → PlaybackController
  animationControlOpen : Bool
  motionControlOpen : Bool
  clickUsePosition : Bool
  clickUseRotation : Bool
  clickShowBox : Bool
  clickShowMotion : Bool
  clickResetAccumulator : Bool

namespace MotionPlaybackSampleApplication

/-- `MotionPlaybackSampleApplication::OnGui`
(sample_motion_playback.cc, lines 167-192): playback controls, then the
`Motion control` section with the four display/apply checkboxes and the
`Reset accumulator` button (a `Teleport` to the identity transform). -/
def OnGui (g : PlaybackGuiInput) (s : PlaybackState) :
    Bool × PlaybackState :=
  let s0 : PlaybackState :=
    if g.animationControlOpen then
      { s with controller_ := g.controllerInteraction s.controller_ }
    else s
  if g.motionControlOpen then
    let s1 : PlaybackState :=
      { s0 with
        apply_motion_position_ :=
          (DoCheckBox g.clickUsePosition s0.apply_motion_position_).fst,
        apply_motion_rotation_ :=
          (DoCheckBox g.clickUseRotation s0.apply_motion_rotation_).fst,
        show_box_ := (DoCheckBox g.clickShowBox s0.show_box_).fst,
        show_motion_ := (DoCheckBox g.clickShowMotion s0.show_motion_).fst }
    if g.clickResetAccumulator then
      (true, { s1 with motion_accumulator_ :=
                 s1.motion_accumulator_.Teleport Transform.identity })
    else (true, s1)
  else (true, s0)

end MotionPlaybackSampleApplication

/-! Concrete fixtures: a small skeleton/animation configuration and a fully
successful collaborator environment, used to instantiate the theorems below
at explicit inputs. -/

/-- A four-joint skeleton. -/
def egSkeleton : Skeleton := ⟨4, 1⟩

/-- A runtime animation with four tracks (matching `egSkeleton`). -/
def egAnimation : Animation := ⟨10, 4⟩

/-- Example per-channel settings. -/
def egSettings : Settings := ⟨true, true, true, .kAbsolute, true, false⟩

/-- Example extractor configuration. -/
def egExtractor : MotionExtractor := ⟨egSettings, egSettings⟩

/-- Example playback controller at ratio 0. -/
def egController : PlaybackController := ⟨0, 0⟩

/-- Example runtime motion tracks. -/
def egMotionTrack : MotionTrack := ⟨⟨1⟩, ⟨2⟩⟩

/-- Example member state of the extraction sample. -/
def egState : MotionState :=
  { controller_ := egController,
    motion_extractor_ := egExtractor,
    skeleton_ := egSkeleton,
    raw_animation_ := ⟨0⟩,
    animation_ := egAnimation,
    motion_track_ := egMotionTrack,
    context_ := ⟨4, false⟩,
    transform_ := Float4x4.identity,
    locals_ := [⟨0⟩],
    models_ := List.replicate 4 Float4x4.identity,
    apply_motion_position_ := true,
    apply_motion_rotation_ := true }

/-- A collaborator environment for the extraction sample in which every
stage succeeds, with distinguishable handles at every stage. -/
def egEnv : ExtractionSampleEnv :=
  { loadSkeleton := some egSkeleton,
    loadRawAnimation := some ⟨0⟩,
    motionExtractorRun := fun _ _ _ => some (⟨10⟩, ⟨20⟩, ⟨30⟩),
    trackOptimizerF3 := fun t => some ⟨t.id + 1⟩,
    trackOptimizerQuat := fun t => some ⟨t.id + 1⟩,
    trackBuilderF3 := fun t => some ⟨t.id + 100⟩,
    trackBuilderQuat := fun t => some ⟨t.id + 100⟩,
    animOptimizerRun := fun a _ => some ⟨a.id + 1⟩,
    animBuilderRun := fun a => some ⟨a.id + 100, 4⟩,
    controllerUpdate := fun c _ dt => (0, ⟨dt, c.opaque_state⟩),
    float3TrackSample := fun _ _ => some ⟨1, 2, 3⟩,
    quatTrackSample := fun _ _ => some ⟨0, 0, 0, 1⟩,
    samplingJobRun := fun _ _ _ n => some (List.replicate n ⟨5⟩),
    localToModelRun := fun _ _ n => some (List.replicate n Float4x4.identity) }

/-- `egEnv` with the animation optimization stage failing. -/
def egEnvAnimOptFail : ExtractionSampleEnv :=
  { egEnv with animOptimizerRun := fun _ _ => none }

/-- Example accumulated transform. -/
def egAccumulated : Transform := ⟨⟨3, 0, 4⟩, ⟨0, 1, 0, 0⟩, ⟨2, 2, 2⟩⟩

/-- Example motion accumulator. -/
def egAccumulator : MotionAccumulator := ⟨egAccumulated, 7⟩

/-- Example member state of the playback sample, with a non-identity
previous-frame transform. -/
def egPState : PlaybackState :=
  { controller_ := egController,
    skeleton_ := egSkeleton,
    animation_ := egAnimation,
    motion_track_ := egMotionTrack,
    motion_accumulator_ := ⟨Transform.identity, 0⟩,
    transform_ := Float4x4.translation ⟨9, 9, 9⟩,
    context_ := ⟨4, false⟩,
    locals_ := [⟨0⟩],
    models_ := List.replicate 4 Float4x4.identity,
    show_box_ := true,
    show_motion_ := true,
    apply_motion_position_ := true,
    apply_motion_rotation_ := true }

/-- A collaborator environment for the playback sample in which every stage
succeeds. -/
def egPEnv : PlaybackSampleEnv :=
  { loadSkeleton := some egSkeleton,
    loadAnimation := some egAnimation,
    loadMotionTrack := some (⟨1⟩, ⟨2⟩),
    controllerUpdate := fun c _ dt => (1, ⟨dt, c.opaque_state⟩),
    accumulatorUpdate := fun a _ _ _ => some ⟨egAccumulated, a.opaque_state⟩,
    samplingJobRun := fun _ _ _ n => some (List.replicate n ⟨5⟩),
    localToModelRun := fun _ _ n => some (List.replicate n Float4x4.identity) }

/-- `egPEnv` with the motion accumulator failing. -/
def egPEnvAccumFail : PlaybackSampleEnv :=
  { egPEnv with accumulatorUpdate := fun _ _ _ _ => none }

/-- `egState` with a non-identity previous-frame transform. -/
def egStateT : MotionState :=
  { egState with transform_ := Float4x4.translation ⟨7, 0, 0⟩ }

/-- `egEnv` with the position-track sampler failing. -/
def egEnvPosSampleFail : ExtractionSampleEnv :=
  { egEnv with float3TrackSample := fun _ _ => none }

/-- `egEnv` with the rotation-track sampler failing. -/
def egEnvRotSampleFail : ExtractionSampleEnv :=
  { egEnv with quatTrackSample := fun _ _ => none }

/-- `egEnv` with the local-to-model conversion failing. -/
def egEnvLtmFail : ExtractionSampleEnv :=
  { egEnv with localToModelRun := fun _ _ _ => none }

/-- `egPEnv` with the local-to-model conversion failing. -/
def egPEnvLtmFail : PlaybackSampleEnv :=
  { egPEnv with localToModelRun := fun _ _ _ => none }
/-- `egEnv` whose animation builder produces a five-track animation,
mismatching the four-joint `egSkeleton`. -/
def egEnvMismatch : ExtractionSampleEnv :=
  { egEnv with animBuilderRun := fun a => some ⟨a.id + 100, 5⟩ }

/-- `egPEnv` loading a five-track animation, mismatching the four-joint
`egSkeleton`. -/
def egPEnvMismatch : PlaybackSampleEnv :=
  { egPEnv with loadAnimation := some ⟨10, 5⟩ }
/-- A GUI frame that interacts only with the `Motion control` toggles. -/
def egInertGui : GuiInput :=
  { controllerInteraction := id,
    animationControlOpen := true,
    clickPosX := false,
    clickPosY := false,
    clickPosZ := false,
    clickPosReference := none,
    clickPosBake := false,
    clickPosLoop := false,
    clickRotX := false,
    clickRotY := false,
    clickRotZ := false,
    clickRotReference := none,
    clickRotBake := false,
    clickRotLoop := false,
    motionControlOpen := true,
    clickUsePosition := true,
    clickUseRotation := false }
/-- The member state on which `OnGui` invokes `ExtractMotion` when `rebuild`
is set: playback controls applied, then the settings written by the widget
pass (this is the `s1` of `MotionSampleApplication.OnGui`). -/
def guiRebuildState (g : GuiInput) (s : MotionState) : MotionState :=
  { MotionSampleApplication.guiControllerStep g s with
    motion_extractor_ :=
      (MotionSampleApplication.applySettingsWidgets g
        (MotionSampleApplication.guiControllerStep g s).motion_extractor_).fst }
/-- `egInertGui` with one settings interaction: the position `x` component
checkbox is clicked. -/
def egChangedGui : GuiInput :=
  { egInertGui with clickPosX := true }

namespace MotionSampleApplication

/-- C1: the claim asserts that a failing `ExtractMotion` leaves
`motion_track_` unchanged at every failure stage.  Counterexample: with an
environment whose animation optimizer fails (and all earlier stages
succeed), `ExtractMotion` returns failure but has already replaced the
motion tracks — the state mixes the newly built tracks with the old
animation. -/
theorem C1_counterexample :
    (ExtractMotion egEnvAnimOptFail egState).fst = false ∧
    (ExtractMotion egEnvAnimOptFail egState).snd.motion_track_ ≠
      egState.motion_track_ ∧
    (ExtractMotion egEnvAnimOptFail egState).snd.animation_ =
      egState.animation_ := by
  refine ⟨rfl, ?_, rfl⟩
  decide

/-- C1 (amended): a failing `ExtractMotion` leaves the runtime animation,
the sampling context and all other member state unchanged; the motion tracks
are also unchanged when the failure occurs during extraction, track
optimization or track building, but when the failure occurs during animation
optimization or animation building the motion tracks have already been
replaced by the newly built runtime tracks. -/
theorem C1_amended (env : ExtractionSampleEnv) (s : MotionState)
    (h : (ExtractMotion env s).fst = false) :
    (ExtractMotion env s).snd.animation_ = s.animation_ ∧
    (ExtractMotion env s).snd.context_ = s.context_ ∧
    (ExtractMotion env s).snd.transform_ = s.transform_ ∧
    (ExtractMotion env s).snd.locals_ = s.locals_ ∧
    (ExtractMotion env s).snd.models_ = s.models_ ∧
    (ExtractMotion env s).snd.motion_extractor_ = s.motion_extractor_ ∧
    ((ExtractMotion env s).snd.motion_track_ = s.motion_track_ ∨
      ∃ rawPos rawRot baked posOpt rotOpt ptrack rtrack,
        env.motionExtractorRun s.motion_extractor_ s.raw_animation_
            s.skeleton_ = some (rawPos, rawRot, baked) ∧
        env.trackOptimizerF3 rawPos = some posOpt ∧
        env.trackOptimizerQuat rawRot = some rotOpt ∧
        env.trackBuilderF3 posOpt = some ptrack ∧
        env.trackBuilderQuat rotOpt = some rtrack ∧
        (ExtractMotion env s).snd.motion_track_ = ⟨ptrack, rtrack⟩) := by
  cases hx : env.motionExtractorRun s.motion_extractor_ s.raw_animation_
      s.skeleton_ with
  | none => simp [ExtractMotion, hx]
  | some v =>
    obtain ⟨rawPos, rawRot, baked⟩ := v
    cases h1 : env.trackOptimizerF3 rawPos with
    | none => simp [ExtractMotion, hx, h1]
    | some posOpt =>
      cases h2 : env.trackOptimizerQuat rawRot with
      | none => simp [ExtractMotion, hx, h1, h2]
      | some rotOpt =>
        cases h3 : env.trackBuilderF3 posOpt with
        | none =>
          cases h4 : env.trackBuilderQuat rotOpt <;>
            simp [ExtractMotion, hx, h1, h2, h3, h4]
        | some ptrack =>
          cases h4 : env.trackBuilderQuat rotOpt with
          | none => simp [ExtractMotion, hx, h1, h2, h3, h4]
          | some rtrack =>
            cases h5 : env.animOptimizerRun baked s.skeleton_ with
            | none =>
              refine ⟨?_, ?_, ?_, ?_, ?_, ?_,
                Or.inr ⟨rawPos, rawRot, baked, posOpt, rotOpt, ptrack,
                  rtrack, ?_, ?_, ?_, ?_, ?_, ?_⟩⟩ <;>
                simp [ExtractMotion, hx, h1, h2, h3, h4, h5]
            | some bakedOpt =>
              cases h6 : env.animBuilderRun bakedOpt with
              | none =>
                refine ⟨?_, ?_, ?_, ?_, ?_, ?_,
                  Or.inr ⟨rawPos, rawRot, baked, posOpt, rotOpt, ptrack,
                    rtrack, ?_, ?_, ?_, ?_, ?_, ?_⟩⟩ <;>
                  simp [ExtractMotion, hx, h1, h2, h3, h4, h5, h6]
              | some anim =>
                simp [ExtractMotion, hx, h1, h2, h3, h4, h5, h6] at h

/-- Witness for C1 (amended): concrete failing run (animation optimizer
fails) in which the motion tracks are observed replaced. -/
theorem C1_amended_witness :
    (ExtractMotion egEnvAnimOptFail egState).snd.animation_ =
      egState.animation_ ∧
    (ExtractMotion egEnvAnimOptFail egState).snd.context_ =
      egState.context_ := by
  have h := C1_amended egEnvAnimOptFail egState (by decide)
  exact ⟨h.1, h.2.1⟩

end MotionSampleApplication

/-- `ExtractMotion` only ever writes `motion_track_`, `animation_` and the
context invalidation flag: every other member, and the context size, is
preserved on every path. -/
theorem extractMotion_preserves (env : ExtractionSampleEnv)
    (s : MotionState) :
    (MotionSampleApplication.ExtractMotion env s).snd.locals_ = s.locals_ ∧
    (MotionSampleApplication.ExtractMotion env s).snd.models_ = s.models_ ∧
    (MotionSampleApplication.ExtractMotion env s).snd.context_.size =
      s.context_.size ∧
    (MotionSampleApplication.ExtractMotion env s).snd.skeleton_ =
      s.skeleton_ ∧
    (MotionSampleApplication.ExtractMotion env s).snd.raw_animation_ =
      s.raw_animation_ ∧
    (MotionSampleApplication.ExtractMotion env s).snd.motion_extractor_ =
      s.motion_extractor_ ∧
    (MotionSampleApplication.ExtractMotion env s).snd.transform_ =
      s.transform_ ∧
    (MotionSampleApplication.ExtractMotion env s).snd.controller_ =
      s.controller_ ∧
    (MotionSampleApplication.ExtractMotion env s).snd.apply_motion_position_ =
      s.apply_motion_position_ ∧
    (MotionSampleApplication.ExtractMotion env s).snd.apply_motion_rotation_ =
      s.apply_motion_rotation_ := by
  cases hx : env.motionExtractorRun s.motion_extractor_ s.raw_animation_
      s.skeleton_ with
  | none => simp [MotionSampleApplication.ExtractMotion, hx]
  | some v =>
    obtain ⟨rawPos, rawRot, baked⟩ := v
    cases h1 : env.trackOptimizerF3 rawPos with
    | none => simp [MotionSampleApplication.ExtractMotion, hx, h1]
    | some posOpt =>
      cases h2 : env.trackOptimizerQuat rawRot with
      | none => simp [MotionSampleApplication.ExtractMotion, hx, h1, h2]
      | some rotOpt =>
        cases h3 : env.trackBuilderF3 posOpt with
        | none =>
          cases h4 : env.trackBuilderQuat rotOpt <;>
            simp [MotionSampleApplication.ExtractMotion, hx, h1, h2, h3, h4]
        | some ptrack =>
          cases h4 : env.trackBuilderQuat rotOpt with
          | none =>
            simp [MotionSampleApplication.ExtractMotion, hx, h1, h2, h3, h4]
          | some rtrack =>
            cases h5 : env.animOptimizerRun baked s.skeleton_ with
            | none =>
              simp [MotionSampleApplication.ExtractMotion, hx, h1, h2, h3,
                h4, h5, SamplingContext.Invalidate]
            | some bakedOpt =>
              cases h6 : env.animBuilderRun bakedOpt <;>
                simp [MotionSampleApplication.ExtractMotion, hx, h1, h2, h3,
                  h4, h5, h6, SamplingContext.Invalidate]

/-- C3: in both samples, a joint-count mismatch between the skeleton and the
(runtime) animation makes `OnInitialize` return failure, with the runtime
buffers (`locals_`, `models_`) never allocated and the sampling context
never sized. -/
theorem C3_mismatch_aborts_startup :
    (∀ (env : ExtractionSampleEnv) (s : MotionState)
        (skeleton : Skeleton) (raw : RawAnimation),
      env.loadSkeleton = some skeleton →
      env.loadRawAnimation = some raw →
      (MotionSampleApplication.ExtractMotion env
          (MotionSampleApplication.loadedState s skeleton raw)).fst = true →
      (MotionSampleApplication.ExtractMotion env
          (MotionSampleApplication.loadedState s skeleton raw)).snd.skeleton_.num_joints ≠
        (MotionSampleApplication.ExtractMotion env
          (MotionSampleApplication.loadedState s skeleton raw)).snd.animation_.num_tracks →
      (MotionSampleApplication.OnInitialize env s).fst = false ∧
      (MotionSampleApplication.OnInitialize env s).snd.locals_ = s.locals_ ∧
      (MotionSampleApplication.OnInitialize env s).snd.models_ = s.models_ ∧
      (MotionSampleApplication.OnInitialize env s).snd.context_.size =
        s.context_.size) ∧
    (∀ (env : PlaybackSampleEnv) (s : PlaybackState)
        (skeleton : Skeleton) (animation : Animation)
        (tracks : Float3Track × QuaternionTrack),
      env.loadSkeleton = some skeleton →
      env.loadAnimation = some animation →
      env.loadMotionTrack = some tracks →
      skeleton.num_joints ≠ animation.num_tracks →
      (MotionPlaybackSampleApplication.OnInitialize env s).fst = false ∧
      (MotionPlaybackSampleApplication.OnInitialize env s).snd.locals_ =
        s.locals_ ∧
      (MotionPlaybackSampleApplication.OnInitialize env s).snd.models_ =
        s.models_ ∧
      (MotionPlaybackSampleApplication.OnInitialize env s).snd.context_ =
        s.context_) := by
  constructor
  · intro env s skeleton raw hsk hraw hex hmm
    have hpres := extractMotion_preserves env
      (MotionSampleApplication.loadedState s skeleton raw)
    unfold MotionSampleApplication.OnInitialize
    simp only [hsk, hraw]
    rcases hr : MotionSampleApplication.ExtractMotion env
        (MotionSampleApplication.loadedState s skeleton raw) with ⟨ok, s3⟩
    rw [hr] at hex hmm hpres
    simp only at hex hmm hpres
    subst hex
    refine ⟨?_, ?_, ?_, ?_⟩ <;>
      simp_all [MotionSampleApplication.loadedState]
  · intro env s skeleton animation tracks hsk hanim htr hmm
    unfold MotionPlaybackSampleApplication.OnInitialize
    simp [hsk, hanim, htr, hmm]

/-- Witness for C3: concrete mismatching configurations (four-joint skeleton,
five-track animation) abort initialization in both samples. -/
theorem C3_mismatch_witness :
    (MotionSampleApplication.OnInitialize egEnvMismatch egState).fst =
      false ∧
    (MotionPlaybackSampleApplication.OnInitialize egPEnvMismatch
      egPState).fst = false := by
  refine ⟨?_, ?_⟩
  · exact (C3_mismatch_aborts_startup.1 egEnvMismatch egState egSkeleton
      ⟨0⟩ rfl rfl (by decide) (by decide)).1
  · exact (C3_mismatch_aborts_startup.2 egPEnvMismatch egPState egSkeleton
      ⟨10, 5⟩ (⟨1⟩, ⟨2⟩) rfl rfl rfl (by decide)).1

/-- The pose-sampling/local-to-model tail of the extraction sample's
`OnUpdate` touches only `locals_` and `models_`. -/
theorem onUpdateAnim_preserves (env : ExtractionSampleEnv)
    (s : MotionState) :
    (MotionSampleApplication.OnUpdateAnim env s).snd.motion_track_ =
      s.motion_track_ ∧
    (MotionSampleApplication.OnUpdateAnim env s).snd.animation_ =
      s.animation_ ∧
    (MotionSampleApplication.OnUpdateAnim env s).snd.motion_extractor_ =
      s.motion_extractor_ ∧
    (MotionSampleApplication.OnUpdateAnim env s).snd.context_ =
      s.context_ ∧
    (MotionSampleApplication.OnUpdateAnim env s).snd.skeleton_ =
      s.skeleton_ ∧
    (MotionSampleApplication.OnUpdateAnim env s).snd.raw_animation_ =
      s.raw_animation_ ∧
    (MotionSampleApplication.OnUpdateAnim env s).snd.transform_ =
      s.transform_ ∧
    (MotionSampleApplication.OnUpdateAnim env s).snd.apply_motion_position_ =
      s.apply_motion_position_ ∧
    (MotionSampleApplication.OnUpdateAnim env s).snd.apply_motion_rotation_ =
      s.apply_motion_rotation_ := by
  unfold MotionSampleApplication.OnUpdateAnim
  cases hs : env.samplingJobRun s.animation_ s.context_
      s.controller_.time_ratio s.locals_.length with
  | none => simp
  | some locals =>
    cases hm : env.localToModelRun s.skeleton_ locals s.models_.length <;>
      simp [hm]

/-- The rotation step of the extraction sample's `OnUpdate` never touches
the tracks, animation, settings or context. -/
theorem onUpdateRotation_preserves (env : ExtractionSampleEnv)
    (s : MotionState) :
    (MotionSampleApplication.OnUpdateRotation env s).snd.motion_track_ =
      s.motion_track_ ∧
    (MotionSampleApplication.OnUpdateRotation env s).snd.animation_ =
      s.animation_ ∧
    (MotionSampleApplication.OnUpdateRotation env s).snd.motion_extractor_ =
      s.motion_extractor_ ∧
    (MotionSampleApplication.OnUpdateRotation env s).snd.context_ =
      s.context_ ∧
    (MotionSampleApplication.OnUpdateRotation env s).snd.skeleton_ =
      s.skeleton_ ∧
    (MotionSampleApplication.OnUpdateRotation env s).snd.raw_animation_ =
      s.raw_animation_ ∧
    (MotionSampleApplication.OnUpdateRotation
        env s).snd.apply_motion_position_ = s.apply_motion_position_ ∧
    (MotionSampleApplication.OnUpdateRotation
        env s).snd.apply_motion_rotation_ = s.apply_motion_rotation_ := by
  unfold MotionSampleApplication.OnUpdateRotation
  by_cases hb : s.apply_motion_rotation_ = true
  · rw [if_pos hb]
    cases hq : env.quatTrackSample s.motion_track_.rotation
        s.controller_.time_ratio with
    | none => exact ⟨rfl, rfl, rfl, rfl, rfl, rfl, rfl, rfl⟩
    | some rotation =>
      have h := onUpdateAnim_preserves env
        { s with transform_ :=
            s.transform_.mul (Float4x4.fromQuaternion rotation) }
      exact ⟨h.1, h.2.1, h.2.2.1, h.2.2.2.1, h.2.2.2.2.1, h.2.2.2.2.2.1,
        h.2.2.2.2.2.2.2.1, h.2.2.2.2.2.2.2.2⟩
  · rw [if_neg hb]
    have h := onUpdateAnim_preserves env s
    exact ⟨h.1, h.2.1, h.2.2.1, h.2.2.2.1, h.2.2.2.2.1, h.2.2.2.2.2.1,
      h.2.2.2.2.2.2.2.1, h.2.2.2.2.2.2.2.2⟩

/-- The position step of the extraction sample's `OnUpdate` never touches
the tracks, animation, settings or context. -/
theorem onUpdatePosition_preserves (env : ExtractionSampleEnv)
    (s : MotionState) :
    (MotionSampleApplication.OnUpdatePosition env s).snd.motion_track_ =
      s.motion_track_ ∧
    (MotionSampleApplication.OnUpdatePosition env s).snd.animation_ =
      s.animation_ ∧
    (MotionSampleApplication.OnUpdatePosition env s).snd.motion_extractor_ =
      s.motion_extractor_ ∧
    (MotionSampleApplication.OnUpdatePosition env s).snd.context_ =
      s.context_ ∧
    (MotionSampleApplication.OnUpdatePosition env s).snd.skeleton_ =
      s.skeleton_ ∧
    (MotionSampleApplication.OnUpdatePosition env s).snd.raw_animation_ =
      s.raw_animation_ ∧
    (MotionSampleApplication.OnUpdatePosition
        env s).snd.apply_motion_position_ = s.apply_motion_position_ ∧
    (MotionSampleApplication.OnUpdatePosition
        env s).snd.apply_motion_rotation_ = s.apply_motion_rotation_ := by
  unfold MotionSampleApplication.OnUpdatePosition
  by_cases hb : s.apply_motion_position_ = true
  · rw [if_pos hb]
    cases hq : env.float3TrackSample s.motion_track_.position
        s.controller_.time_ratio with
    | none => exact ⟨rfl, rfl, rfl, rfl, rfl, rfl, rfl, rfl⟩
    | some position =>
      have h := onUpdateRotation_preserves env
        { s with transform_ :=
            s.transform_.mul (Float4x4.translation position) }
      exact ⟨h.1, h.2.1, h.2.2.1, h.2.2.2.1, h.2.2.2.2.1, h.2.2.2.2.2.1,
        h.2.2.2.2.2.2.1, h.2.2.2.2.2.2.2⟩
  · rw [if_neg hb]
    have h := onUpdateRotation_preserves env s
    exact ⟨h.1, h.2.1, h.2.2.1, h.2.2.2.1, h.2.2.2.2.1, h.2.2.2.2.2.1,
      h.2.2.2.2.2.2.1, h.2.2.2.2.2.2.2⟩

/-- The extraction sample's `OnUpdate` never touches the tracks, animation,
settings or context (it only writes `controller_`, `transform_`, `locals_`
and `models_`). -/
theorem onUpdate_preserves (env : ExtractionSampleEnv) (s : MotionState)
    (dt : Rat) :
    (MotionSampleApplication.OnUpdate env s dt).snd.motion_track_ =
      s.motion_track_ ∧
    (MotionSampleApplication.OnUpdate env s dt).snd.animation_ =
      s.animation_ ∧
    (MotionSampleApplication.OnUpdate env s dt).snd.motion_extractor_ =
      s.motion_extractor_ ∧
    (MotionSampleApplication.OnUpdate env s dt).snd.context_ =
      s.context_ ∧
    (MotionSampleApplication.OnUpdate env s dt).snd.apply_motion_position_ =
      s.apply_motion_position_ ∧
    (MotionSampleApplication.OnUpdate env s dt).snd.apply_motion_rotation_ =
      s.apply_motion_rotation_ := by
  unfold MotionSampleApplication.OnUpdate
  have h := onUpdatePosition_preserves env
    { s with
      controller_ := (env.controllerUpdate s.controller_ s.animation_ dt).snd,
      transform_ := Float4x4.identity }
  simp only at h
  exact ⟨h.1, h.2.1, h.2.2.1, h.2.2.2.1, h.2.2.2.2.2.2.1,
    h.2.2.2.2.2.2.2⟩

/-- The playback sample's `OnUpdate` never touches the tracks, animation or
context (it only writes `controller_`, `motion_accumulator_`, `transform_`,
`locals_` and `models_`). -/
theorem playback_onUpdate_preserves (env : PlaybackSampleEnv)
    (s : PlaybackState) (dt : Rat) :
    (MotionPlaybackSampleApplication.OnUpdate env s dt).snd.motion_track_ =
      s.motion_track_ ∧
    (MotionPlaybackSampleApplication.OnUpdate env s dt).snd.animation_ =
      s.animation_ ∧
    (MotionPlaybackSampleApplication.OnUpdate env s dt).snd.context_ =
      s.context_ ∧
    (MotionPlaybackSampleApplication.OnUpdate env s dt).snd.skeleton_ =
      s.skeleton_ ∧
    (MotionPlaybackSampleApplication.OnUpdate
        env s dt).snd.apply_motion_position_ = s.apply_motion_position_ ∧
    (MotionPlaybackSampleApplication.OnUpdate
        env s dt).snd.apply_motion_rotation_ = s.apply_motion_rotation_ := by
  unfold MotionPlaybackSampleApplication.OnUpdate
  cases ha : env.accumulatorUpdate s.motion_accumulator_ s.motion_track_
      (env.controllerUpdate s.controller_ s.animation_ dt).snd.time_ratio
      (env.controllerUpdate s.controller_ s.animation_ dt).fst with
  | none => simp [ha]
  | some accumulator =>
    cases hs : env.samplingJobRun s.animation_ s.context_
        (env.controllerUpdate s.controller_ s.animation_ dt).snd.time_ratio
        s.locals_.length with
    | none => simp [ha, hs]
    | some locals =>
      cases hm : env.localToModelRun s.skeleton_ locals s.models_.length <;>
        simp [ha, hs, hm]

/-- Step characterization: position toggle on and the position sampler
succeeding composes the translation into the transform. -/
theorem onUpdatePosition_sample (env : ExtractionSampleEnv)
    (s : MotionState) (hp : s.apply_motion_position_ = true) (p : Float3)
    (hfp : env.float3TrackSample s.motion_track_.position
      s.controller_.time_ratio = some p) :
    MotionSampleApplication.OnUpdatePosition env s =
      MotionSampleApplication.OnUpdateRotation env
        { s with transform_ :=
            s.transform_.mul (Float4x4.translation p) } := by
  unfold MotionSampleApplication.OnUpdatePosition
  rw [if_pos hp, hfp]

/-- Step characterization: position toggle off skips the position sampler
entirely. -/
theorem onUpdatePosition_skip (env : ExtractionSampleEnv) (s : MotionState)
    (hp : s.apply_motion_position_ = false) :
    MotionSampleApplication.OnUpdatePosition env s =
      MotionSampleApplication.OnUpdateRotation env s := by
  unfold MotionSampleApplication.OnUpdatePosition
  rw [if_neg (by simp [hp])]

/-- Step characterization: rotation toggle on and the rotation sampler
succeeding composes the rotation into the transform. -/
theorem onUpdateRotation_sample (env : ExtractionSampleEnv)
    (s : MotionState) (hr : s.apply_motion_rotation_ = true)
    (q : Quaternion)
    (hfq : env.quatTrackSample s.motion_track_.rotation
      s.controller_.time_ratio = some q) :
    MotionSampleApplication.OnUpdateRotation env s =
      MotionSampleApplication.OnUpdateAnim env
        { s with transform_ :=
            s.transform_.mul (Float4x4.fromQuaternion q) } := by
  unfold MotionSampleApplication.OnUpdateRotation
  rw [if_pos hr, hfq]

/-- Step characterization: rotation toggle off skips the rotation sampler
entirely. -/
theorem onUpdateRotation_skip (env : ExtractionSampleEnv) (s : MotionState)
    (hr : s.apply_motion_rotation_ = false) :
    MotionSampleApplication.OnUpdateRotation env s =
      MotionSampleApplication.OnUpdateAnim env s := by
  unfold MotionSampleApplication.OnUpdateRotation
  rw [if_neg (by simp [hr])]

/-- A failing tick tail (pose sampling or local-to-model) never writes the
model-space buffer. -/
theorem onUpdateAnim_fail_models (env : ExtractionSampleEnv)
    (s : MotionState)
    (h : (MotionSampleApplication.OnUpdateAnim env s).fst = false) :
    (MotionSampleApplication.OnUpdateAnim env s).snd.models_ =
      s.models_ := by
  unfold MotionSampleApplication.OnUpdateAnim at h ⊢
  cases hs : env.samplingJobRun s.animation_ s.context_
      s.controller_.time_ratio s.locals_.length with
  | none => simp [hs]
  | some locals =>
    cases hm : env.localToModelRun s.skeleton_ locals s.models_.length with
    | none => simp [hs, hm]
    | some models => simp [hs, hm] at h

/-- A failing rotation step (or anything after it) never writes the
model-space buffer. -/
theorem onUpdateRotation_fail_models (env : ExtractionSampleEnv)
    (s : MotionState)
    (h : (MotionSampleApplication.OnUpdateRotation env s).fst = false) :
    (MotionSampleApplication.OnUpdateRotation env s).snd.models_ =
      s.models_ := by
  by_cases hr : s.apply_motion_rotation_ = true
  · cases hq : env.quatTrackSample s.motion_track_.rotation
        s.controller_.time_ratio with
    | none =>
      have e : MotionSampleApplication.OnUpdateRotation env s = (false, s) := by
        unfold MotionSampleApplication.OnUpdateRotation
        rw [if_pos hr, hq]
      rw [e]
    | some q =>
      rw [onUpdateRotation_sample env s hr q hq] at h ⊢
      exact onUpdateAnim_fail_models env _ h
  · rw [Bool.not_eq_true] at hr
    rw [onUpdateRotation_skip env s hr] at h ⊢
    exact onUpdateAnim_fail_models env s h

/-- A failing extraction-sample tick never writes the model-space buffer
(position step and below). -/
theorem onUpdatePosition_fail_models (env : ExtractionSampleEnv)
    (s : MotionState)
    (h : (MotionSampleApplication.OnUpdatePosition env s).fst = false) :
    (MotionSampleApplication.OnUpdatePosition env s).snd.models_ =
      s.models_ := by
  by_cases hp : s.apply_motion_position_ = true
  · cases hfp : env.float3TrackSample s.motion_track_.position
        s.controller_.time_ratio with
    | none =>
      have e : MotionSampleApplication.OnUpdatePosition env s =
          (false, s) := by
        unfold MotionSampleApplication.OnUpdatePosition
        rw [if_pos hp, hfp]
      rw [e]
    | some p =>
      rw [onUpdatePosition_sample env s hp p hfp] at h ⊢
      exact onUpdateRotation_fail_models env _ h
  · rw [Bool.not_eq_true] at hp
    rw [onUpdatePosition_skip env s hp] at h ⊢
    exact onUpdateRotation_fail_models env s h

namespace MotionSampleApplication

/-- C2: the claim asserts that whenever a sampling step makes `OnUpdate`
return false, the previous frame's `transform_` is held over unchanged.
Counterexample: in the extraction sample, `OnUpdate` resets `transform_` to
the identity before sampling the position track (line 78), so when the
position sampler fails the previous frame's transform (here a translation)
has already been overwritten. -/
theorem C2_counterexample :
    (OnUpdate egEnvPosSampleFail egStateT 1).fst = false ∧
    (OnUpdate egEnvPosSampleFail egStateT 1).snd.transform_ ≠
      egStateT.transform_ ∧
    (OnUpdate egEnvPosSampleFail egStateT 1).snd.transform_ =
      Float4x4.identity := by
  refine ⟨rfl, ?_, rfl⟩
  decide

/-- C2 (amended): when a sampling step fails, `OnUpdate` returns false
without crashing and the remaining steps of the tick are skipped; no tick
ever modifies the motion tracks, the runtime animation, the extraction
settings or the sampling context, and a failing tick never writes the
model-space buffer.  But the previous frame's `transform_` is held over
only when the failure precedes the transform update — the motion-
accumulator failure in the playback sample.  At every later failure point
`transform_` has already been recomputed for the new tick: in the
extraction sample it is reset to identity before sampling, so a
position-track failure (or a rotation-track failure with the position
toggle off) leaves it at identity, and a rotation-track failure after a
successful position sample leaves it at identity composed with the sampled
translation; in the playback sample a pose-sampling or local-to-model
failure leaves it at the newly composed accumulator transform.  A
local-to-model failure additionally occurs after the local-transform
buffer has already been rewritten by the pose sampler. -/
theorem C2_amended :
    -- no tick ever modifies tracks, animation or context (playback)
    (∀ (env : PlaybackSampleEnv) (s : PlaybackState) (dt : Rat),
      (MotionPlaybackSampleApplication.OnUpdate env s dt).snd.motion_track_
        = s.motion_track_ ∧
      (MotionPlaybackSampleApplication.OnUpdate env s dt).snd.animation_ =
        s.animation_ ∧
      (MotionPlaybackSampleApplication.OnUpdate env s dt).snd.context_ =
        s.context_) ∧
    -- no tick ever modifies tracks, animation, settings or context
    -- (extraction)
    (∀ (env : ExtractionSampleEnv) (s : MotionState) (dt : Rat),
      (OnUpdate env s dt).snd.motion_track_ = s.motion_track_ ∧
      (OnUpdate env s dt).snd.animation_ = s.animation_ ∧
      (OnUpdate env s dt).snd.motion_extractor_ = s.motion_extractor_ ∧
      (OnUpdate env s dt).snd.context_ = s.context_) ∧
    -- a failing playback tick never writes the model-space buffer
    (∀ (env : PlaybackSampleEnv) (s : PlaybackState) (dt : Rat),
      (MotionPlaybackSampleApplication.OnUpdate env s dt).fst = false →
      (MotionPlaybackSampleApplication.OnUpdate env s dt).snd.models_ =
        s.models_) ∧
    -- a failing extraction tick never writes the model-space buffer
    (∀ (env : ExtractionSampleEnv) (s : MotionState) (dt : Rat),
      (OnUpdate env s dt).fst = false →
      (OnUpdate env s dt).snd.models_ = s.models_) ∧
    -- playback, accumulator failure: tick aborts with the previous
    -- transform held over and the buffers untouched
    (∀ (env : PlaybackSampleEnv) (s : PlaybackState) (dt : Rat),
      env.accumulatorUpdate s.motion_accumulator_ s.motion_track_
          (env.controllerUpdate s.controller_ s.animation_
            dt).snd.time_ratio
          (env.controllerUpdate s.controller_ s.animation_ dt).fst =
        none →
      MotionPlaybackSampleApplication.OnUpdate env s dt =
        (false,
         { s with controller_ :=
             (env.controllerUpdate s.controller_ s.animation_ dt).snd })) ∧
    -- playback, pose-sampling failure: transform already recomposed from
    -- the new accumulator, buffers untouched
    (∀ (env : PlaybackSampleEnv) (s : PlaybackState) (dt : Rat)
        (accumulator : MotionAccumulator),
      env.accumulatorUpdate s.motion_accumulator_ s.motion_track_
          (env.controllerUpdate s.controller_ s.animation_
            dt).snd.time_ratio
          (env.controllerUpdate s.controller_ s.animation_ dt).fst =
        some accumulator →
      env.samplingJobRun s.animation_ s.context_
          (env.controllerUpdate s.controller_ s.animation_
            dt).snd.time_ratio s.locals_.length = none →
      MotionPlaybackSampleApplication.OnUpdate env s dt =
        (false,
         { s with
           controller_ :=
             (env.controllerUpdate s.controller_ s.animation_ dt).snd,
           motion_accumulator_ := accumulator,
           transform_ := Float4x4.fromAffine
             (if s.apply_motion_position_ then
                accumulator.transform.translation
              else Float3.zero)
             (if s.apply_motion_rotation_ then
                accumulator.transform.rotation
              else Quaternion.identity)
             accumulator.transform.scale })) ∧
    -- playback, local-to-model failure: locals_ already rewritten by the
    -- pose sampler, models_ untouched
    (∀ (env : PlaybackSampleEnv) (s : PlaybackState) (dt : Rat)
        (accumulator : MotionAccumulator) (locals : List SoaTransform),
      env.accumulatorUpdate s.motion_accumulator_ s.motion_track_
          (env.controllerUpdate s.controller_ s.animation_
            dt).snd.time_ratio
          (env.controllerUpdate s.controller_ s.animation_ dt).fst =
        some accumulator →
      env.samplingJobRun s.animation_ s.context_
          (env.controllerUpdate s.controller_ s.animation_
            dt).snd.time_ratio s.locals_.length = some locals →
      env.localToModelRun s.skeleton_ locals s.models_.length = none →
      MotionPlaybackSampleApplication.OnUpdate env s dt =
        (false,
         { s with
           controller_ :=
             (env.controllerUpdate s.controller_ s.animation_ dt).snd,
           motion_accumulator_ := accumulator,
           transform_ := Float4x4.fromAffine
             (if s.apply_motion_position_ then
                accumulator.transform.translation
              else Float3.zero)
             (if s.apply_motion_rotation_ then
                accumulator.transform.rotation
              else Quaternion.identity)
             accumulator.transform.scale,
           locals_ := locals })) ∧
    -- extraction, position-track failure: transform already reset to
    -- identity, buffers untouched
    (∀ (env : ExtractionSampleEnv) (s : MotionState) (dt : Rat),
      s.apply_motion_position_ = true →
      env.float3TrackSample s.motion_track_.position
          (env.controllerUpdate s.controller_ s.animation_
            dt).snd.time_ratio = none →
      OnUpdate env s dt =
        (false,
         { s with
           controller_ :=
             (env.controllerUpdate s.controller_ s.animation_ dt).snd,
           transform_ := Float4x4.identity })) ∧
    -- extraction, rotation-track failure with the position toggle off:
    -- transform already reset to identity, buffers untouched
    (∀ (env : ExtractionSampleEnv) (s : MotionState) (dt : Rat),
      s.apply_motion_position_ = false →
      s.apply_motion_rotation_ = true →
      env.quatTrackSample s.motion_track_.rotation
          (env.controllerUpdate s.controller_ s.animation_
            dt).snd.time_ratio = none →
      OnUpdate env s dt =
        (false,
         { s with
           controller_ :=
             (env.controllerUpdate s.controller_ s.animation_ dt).snd,
           transform_ := Float4x4.identity })) ∧
    -- extraction, rotation-track failure after a successful position
    -- sample: transform already identity times the sampled translation
    (∀ (env : ExtractionSampleEnv) (s : MotionState) (dt : Rat)
        (p : Float3),
      s.apply_motion_position_ = true →
      env.float3TrackSample s.motion_track_.position
          (env.controllerUpdate s.controller_ s.animation_
            dt).snd.time_ratio = some p →
      s.apply_motion_rotation_ = true →
      env.quatTrackSample s.motion_track_.rotation
          (env.controllerUpdate s.controller_ s.animation_
            dt).snd.time_ratio = none →
      OnUpdate env s dt =
        (false,
         { s with
           controller_ :=
             (env.controllerUpdate s.controller_ s.animation_ dt).snd,
           transform_ :=
             Float4x4.identity.mul (Float4x4.translation p) })) ∧
    -- extraction tick tail, pose-sampling failure: aborts with the state
    -- (and in particular the recomputed transform and both buffers)
    -- exactly as it stood
    (∀ (env : ExtractionSampleEnv) (s : MotionState),
      env.samplingJobRun s.animation_ s.context_ s.controller_.time_ratio
          s.locals_.length = none →
      OnUpdateAnim env s = (false, s)) ∧
    -- extraction tick tail, local-to-model failure: locals_ already
    -- rewritten by the pose sampler, models_ untouched
    (∀ (env : ExtractionSampleEnv) (s : MotionState)
        (locals : List SoaTransform),
      env.samplingJobRun s.animation_ s.context_ s.controller_.time_ratio
          s.locals_.length = some locals →
      env.localToModelRun s.skeleton_ locals s.models_.length = none →
      OnUpdateAnim env s = (false, { s with locals_ := locals })) := by
  refine ⟨?_, ?_, ?_, ?_, ?_, ?_, ?_, ?_, ?_, ?_, ?_, ?_⟩
  · intro env s dt
    have h := playback_onUpdate_preserves env s dt
    exact ⟨h.1, h.2.1, h.2.2.1⟩
  · intro env s dt
    have h := onUpdate_preserves env s dt
    exact ⟨h.1, h.2.1, h.2.2.1, h.2.2.2.1⟩
  · intro env s dt h
    unfold MotionPlaybackSampleApplication.OnUpdate at h ⊢
    cases ha : env.accumulatorUpdate s.motion_accumulator_ s.motion_track_
        (env.controllerUpdate s.controller_ s.animation_ dt).snd.time_ratio
        (env.controllerUpdate s.controller_ s.animation_ dt).fst with
    | none => simp [ha]
    | some accumulator =>
      cases hs : env.samplingJobRun s.animation_ s.context_
          (env.controllerUpdate s.controller_ s.animation_
            dt).snd.time_ratio s.locals_.length with
      | none => simp [ha, hs]
      | some locals =>
        cases hm : env.localToModelRun s.skeleton_ locals
            s.models_.length with
        | none => simp [ha, hs, hm]
        | some models => simp [ha, hs, hm] at h
  · intro env s dt h
    have e1 : OnUpdate env s dt =
        OnUpdatePosition env
          { s with
            controller_ :=
              (env.controllerUpdate s.controller_ s.animation_ dt).snd,
            transform_ := Float4x4.identity } := rfl
    rw [e1] at h ⊢
    exact onUpdatePosition_fail_models env _ h
  · intro env s dt h
    unfold MotionPlaybackSampleApplication.OnUpdate
    simp [h]
  · intro env s dt accumulator ha hs
    unfold MotionPlaybackSampleApplication.OnUpdate
    simp [ha, hs]
  · intro env s dt accumulator locals ha hs hm
    unfold MotionPlaybackSampleApplication.OnUpdate
    simp [ha, hs, hm]
  · intro env s dt hp h
    unfold OnUpdate OnUpdatePosition
    simp [hp, h]
  · intro env s dt hp hr hq
    unfold OnUpdate OnUpdatePosition OnUpdateRotation
    simp [hp, hr, hq]
  · intro env s dt p hp hfp hr hq
    unfold OnUpdate OnUpdatePosition OnUpdateRotation
    simp [hp, hfp, hr, hq]
  · intro env s h
    unfold OnUpdateAnim
    simp [h]
  · intro env s locals hs hm
    unfold OnUpdateAnim
    simp [hs, hm]

/-- Witness for C2 (amended): each failure point exercised at a concrete
environment — playback accumulator failure holds the transform over,
extraction position failure leaves identity, extraction rotation failure
after a position sample leaves identity times the sampled translation, and
local-to-model failures in both samples leave the local-transform buffer
already rewritten. -/
theorem C2_amended_witness :
    (MotionPlaybackSampleApplication.OnUpdate egPEnvAccumFail egPState
        1).snd.transform_ = egPState.transform_ ∧
    (OnUpdate egEnvPosSampleFail egStateT 1).snd.transform_ =
      Float4x4.identity ∧
    (OnUpdate egEnvRotSampleFail egStateT 1).snd.transform_ =
      Float4x4.identity.mul (Float4x4.translation ⟨1, 2, 3⟩) ∧
    (OnUpdateAnim egEnvLtmFail egState).snd.locals_ = [⟨5⟩] ∧
    (MotionPlaybackSampleApplication.OnUpdate egPEnvLtmFail egPState
        1).snd.locals_ = [⟨5⟩] := by
  refine ⟨?_, ?_, ?_, ?_, ?_⟩
  · rw [C2_amended.2.2.2.2.1 egPEnvAccumFail egPState 1 rfl]
  · rw [C2_amended.2.2.2.2.2.2.2.1 egEnvPosSampleFail egStateT 1 rfl rfl]
  · rw [C2_amended.2.2.2.2.2.2.2.2.2.1 egEnvRotSampleFail egStateT 1
      ⟨1, 2, 3⟩ rfl rfl rfl rfl]
  · rw [C2_amended.2.2.2.2.2.2.2.2.2.2.2 egEnvLtmFail egState [⟨5⟩]
      (by decide) rfl]
  · rw [C2_amended.2.2.2.2.2.2.1 egPEnvLtmFail egPState 1
      ⟨egAccumulated, 0⟩ [⟨5⟩] (by decide) (by decide) rfl]

end MotionSampleApplication

/-- With no interaction on any of the twelve settings widgets, the widget
pass reports no modification and leaves the settings unchanged. -/
theorem applySettingsWidgets_inert (g : GuiInput) (me : MotionExtractor)
    (h1 : g.clickPosX = false) (h2 : g.clickPosY = false)
    (h3 : g.clickPosZ = false) (h4 : g.clickPosReference = none)
    (h5 : g.clickPosBake = false) (h6 : g.clickPosLoop = false)
    (h7 : g.clickRotX = false) (h8 : g.clickRotY = false)
    (h9 : g.clickRotZ = false) (h10 : g.clickRotReference = none)
    (h11 : g.clickRotBake = false) (h12 : g.clickRotLoop = false) :
    MotionSampleApplication.applySettingsWidgets g me = (me, false) := by
  unfold MotionSampleApplication.applySettingsWidgets
  simp [DoCheckBox, DoRadioGroup, h1, h2, h3, h4, h5, h6, h7, h8, h9, h10,
    h11, h12]

/-- The playback-controls GUI block touches only `controller_`. -/
theorem guiControllerStep_preserves (g : GuiInput) (s : MotionState) :
    (MotionSampleApplication.guiControllerStep g s).motion_track_ =
      s.motion_track_ ∧
    (MotionSampleApplication.guiControllerStep g s).animation_ =
      s.animation_ ∧
    (MotionSampleApplication.guiControllerStep g s).motion_extractor_ =
      s.motion_extractor_ ∧
    (MotionSampleApplication.guiControllerStep g s).context_ = s.context_ := by
  unfold MotionSampleApplication.guiControllerStep
  split <;> simp

/-- The `Motion control` GUI block touches only the two apply toggles. -/
theorem guiMotionControlStep_preserves (g : GuiInput) (s : MotionState) :
    (MotionSampleApplication.guiMotionControlStep g s).motion_track_ =
      s.motion_track_ ∧
    (MotionSampleApplication.guiMotionControlStep g s).animation_ =
      s.animation_ ∧
    (MotionSampleApplication.guiMotionControlStep g s).motion_extractor_ =
      s.motion_extractor_ ∧
    (MotionSampleApplication.guiMotionControlStep g s).context_ =
      s.context_ := by
  unfold MotionSampleApplication.guiMotionControlStep
  split <;> simp

/-- C4: the apply toggles are purely a compositing choice.  (i) A GUI frame
that interacts with nothing but the `Motion control` toggles produces the
same result under any collaborator environment (so no re-extraction runs),
returns true, and leaves the motion tracks, the runtime animation, the
extraction settings and the sampling context unchanged; (ii) the extraction
sample's `OnUpdate` never modifies tracks, animation or settings whatever
the toggle values; (iii) the playback sample's `OnGui` always returns true
and never modifies tracks or animation; (iv) the playback sample's
`OnUpdate` never modifies tracks or animation. -/
theorem C4_toggles_only_compositing :
    (∀ (env env' : ExtractionSampleEnv) (g : GuiInput) (s : MotionState),
      g.clickPosX = false → g.clickPosY = false → g.clickPosZ = false →
      g.clickPosReference = none → g.clickPosBake = false →
      g.clickPosLoop = false → g.clickRotX = false → g.clickRotY = false →
      g.clickRotZ = false → g.clickRotReference = none →
      g.clickRotBake = false → g.clickRotLoop = false →
      MotionSampleApplication.OnGui env g s =
        MotionSampleApplication.OnGui env' g s ∧
      (MotionSampleApplication.OnGui env g s).fst = true ∧
      (MotionSampleApplication.OnGui env g s).snd.motion_track_ =
        s.motion_track_ ∧
      (MotionSampleApplication.OnGui env g s).snd.animation_ =
        s.animation_ ∧
      (MotionSampleApplication.OnGui env g s).snd.motion_extractor_ =
        s.motion_extractor_ ∧
      (MotionSampleApplication.OnGui env g s).snd.context_ = s.context_) ∧
    (∀ (env : ExtractionSampleEnv) (s : MotionState) (dt : Rat),
      (MotionSampleApplication.OnUpdate env s dt).snd.motion_track_ =
        s.motion_track_ ∧
      (MotionSampleApplication.OnUpdate env s dt).snd.animation_ =
        s.animation_ ∧
      (MotionSampleApplication.OnUpdate env s dt).snd.motion_extractor_ =
        s.motion_extractor_) ∧
    (∀ (g : PlaybackGuiInput) (s : PlaybackState),
      (MotionPlaybackSampleApplication.OnGui g s).fst = true ∧
      (MotionPlaybackSampleApplication.OnGui g s).snd.motion_track_ =
        s.motion_track_ ∧
      (MotionPlaybackSampleApplication.OnGui g s).snd.animation_ =
        s.animation_ ∧
      (MotionPlaybackSampleApplication.OnGui g s).snd.context_ =
        s.context_) ∧
    (∀ (env : PlaybackSampleEnv) (s : PlaybackState) (dt : Rat),
      (MotionPlaybackSampleApplication.OnUpdate env s dt).snd.motion_track_ =
        s.motion_track_ ∧
      (MotionPlaybackSampleApplication.OnUpdate env s dt).snd.animation_ =
        s.animation_) := by
  refine ⟨?_, ?_, ?_, ?_⟩
  · intro env env' g s h1 h2 h3 h4 h5 h6 h7 h8 h9 h10 h11 h12
    have hw := applySettingsWidgets_inert g
      (MotionSampleApplication.guiControllerStep g s).motion_extractor_
      h1 h2 h3 h4 h5 h6 h7 h8 h9 h10 h11 h12
    have hcs := guiControllerStep_preserves g s
    have hms := guiMotionControlStep_preserves g
      (MotionSampleApplication.guiControllerStep g s)
    unfold MotionSampleApplication.OnGui
    simp only [hw]
    refine ⟨rfl, rfl, ?_, ?_, ?_, ?_⟩
    · exact hms.1.trans hcs.1
    · exact hms.2.1.trans hcs.2.1
    · exact hms.2.2.1.trans hcs.2.2.1
    · exact hms.2.2.2.trans hcs.2.2.2
  · intro env s dt
    have h := onUpdate_preserves env s dt
    exact ⟨h.1, h.2.1, h.2.2.1⟩
  · intro g s
    unfold MotionPlaybackSampleApplication.OnGui
    split <;> split <;> [skip; skip; skip; skip] <;>
      first
        | (split <;> simp [MotionAccumulator.Teleport])
        | simp
  · intro env s dt
    have h := playback_onUpdate_preserves env s dt
    exact ⟨h.1, h.2.1⟩

/-- Witness for C4: a concrete toggle-only GUI frame returns true and leaves
the motion tracks, animation and settings unchanged. -/
theorem C4_witness :
    (MotionSampleApplication.OnGui egEnv egInertGui egState).fst = true ∧
    (MotionSampleApplication.OnGui egEnv egInertGui
      egState).snd.motion_track_ = egState.motion_track_ ∧
    (MotionSampleApplication.OnGui egEnv egInertGui
      egState).snd.motion_extractor_ = egState.motion_extractor_ := by
  have h := C4_toggles_only_compositing.1 egEnv egEnvAnimOptFail egInertGui
    egState rfl rfl rfl rfl rfl rfl rfl rfl rfl rfl rfl rfl
  exact ⟨h.2.1, h.2.2.1, h.2.2.2.2.1⟩

/-- C5: the playback tick follows the fixed sequence.  When the controller
update yields a loop count and a new controller, the accumulator update at
the controller's new time ratio with that loop count succeeds, the pose
sampler at the same ratio succeeds and the local-to-model conversion
succeeds, then `OnUpdate` returns true and the resulting state installs
exactly: the new controller, the updated accumulator, the transform composed
from the accumulator's transform and the apply toggles, the sampled local
transforms and the converted model matrices. -/
theorem C5_playback_tick_sequence (env : PlaybackSampleEnv)
    (s : PlaybackState) (dt : Rat) (loops : Int)
    (controller : PlaybackController) (accumulator : MotionAccumulator)
    (locals : List SoaTransform) (models : List Float4x4)
    (hc : env.controllerUpdate s.controller_ s.animation_ dt =
      (loops, controller))
    (ha : env.accumulatorUpdate s.motion_accumulator_ s.motion_track_
      controller.time_ratio loops = some accumulator)
    (hs : env.samplingJobRun s.animation_ s.context_ controller.time_ratio
      s.locals_.length = some locals)
    (hm : env.localToModelRun s.skeleton_ locals s.models_.length =
      some models) :
    MotionPlaybackSampleApplication.OnUpdate env s dt =
      (true,
       { s with
         controller_ := controller,
         motion_accumulator_ := accumulator,
         transform_ := Float4x4.fromAffine
           (if s.apply_motion_position_ then
              accumulator.transform.translation
            else Float3.zero)
           (if s.apply_motion_rotation_ then accumulator.transform.rotation
            else Quaternion.identity)
           accumulator.transform.scale,
         locals_ := locals,
         models_ := models }) := by
  unfold MotionPlaybackSampleApplication.OnUpdate
  simp only [hc]
  simp only [ha, hs, hm]

/-- Witness for C5: the sequence theorem applied to a concrete environment
and state. -/
theorem C5_witness :
    (MotionPlaybackSampleApplication.OnUpdate egPEnv egPState 1).fst =
      true := by
  rw [C5_playback_tick_sequence egPEnv egPState 1 1 ⟨1, 0⟩
    ⟨egAccumulated, 0⟩ [⟨5⟩] (List.replicate 4 Float4x4.identity)
    (by decide) (by decide) (by decide) (by decide)]

/-- A checkbox reports a modification exactly when its value changed. -/
theorem DoCheckBox_changed (c v : Bool) :
    (DoCheckBox c v).snd = true ↔ (DoCheckBox c v).fst ≠ v := by
  cases c <;> cases v <;> decide

/-- A radio-button group reports a modification exactly when its value
changed. -/
theorem DoRadioGroup_changed (o : Option Reference) (v : Reference) :
    (DoRadioGroup o v).snd = true ↔ (DoRadioGroup o v).fst ≠ v := by
  cases o with
  | none => simp [DoRadioGroup]
  | some r => cases r <;> cases v <;> decide

/-- The widget pass's `rebuild` flag is set exactly when the extraction
settings record actually changed. -/
theorem applySettingsWidgets_changed_iff (g : GuiInput)
    (me : MotionExtractor) :
    (MotionSampleApplication.applySettingsWidgets g me).snd = true ↔
      (MotionSampleApplication.applySettingsWidgets g me).fst ≠ me := by
  obtain ⟨⟨p1, p2, p3, p4, p5, p6⟩, r1, r2, r3, r4, r5, r6⟩ := me
  simp only [MotionSampleApplication.applySettingsWidgets, Bool.or_eq_true,
    ne_eq, MotionExtractor.mk.injEq, Settings.mk.injEq, not_and]
  rw [DoCheckBox_changed g.clickPosX p1, DoCheckBox_changed g.clickPosY p2,
    DoCheckBox_changed g.clickPosZ p3, DoRadioGroup_changed
      g.clickPosReference p4, DoCheckBox_changed g.clickPosBake p5,
    DoCheckBox_changed g.clickPosLoop p6, DoCheckBox_changed g.clickRotX r1,
    DoCheckBox_changed g.clickRotY r2, DoCheckBox_changed g.clickRotZ r3,
    DoRadioGroup_changed g.clickRotReference r4, DoCheckBox_changed
      g.clickRotBake r5, DoCheckBox_changed g.clickRotLoop r6]
  tauto

/-- C6: (i) the `rebuild` flag is set exactly when some extraction setting
was written to a different value; (ii) when it is set, `OnGui` runs
`ExtractMotion` on the settings-updated state within the same call (hence
before the next update tick) and its result is exactly the extraction
result's; (iii) when no setting changed, `OnGui` is independent of the
extraction environment (no re-extraction runs) and merely applies the
non-settings widgets. -/
theorem C6_settings_write_triggers_extraction :
    (∀ (g : GuiInput) (me : MotionExtractor),
      (MotionSampleApplication.applySettingsWidgets g me).snd = true ↔
        (MotionSampleApplication.applySettingsWidgets g me).fst ≠ me) ∧
    (∀ (env : ExtractionSampleEnv) (g : GuiInput) (s : MotionState),
      (MotionSampleApplication.applySettingsWidgets g
        (MotionSampleApplication.guiControllerStep g
          s).motion_extractor_).snd = true →
      MotionSampleApplication.OnGui env g s =
        (if (MotionSampleApplication.ExtractMotion env
              (guiRebuildState g s)).fst
         then (true, MotionSampleApplication.guiMotionControlStep g
                (MotionSampleApplication.ExtractMotion env
                  (guiRebuildState g s)).snd)
         else (false, (MotionSampleApplication.ExtractMotion env
                (guiRebuildState g s)).snd))) ∧
    (∀ (env : ExtractionSampleEnv) (g : GuiInput) (s : MotionState),
      (MotionSampleApplication.applySettingsWidgets g
        (MotionSampleApplication.guiControllerStep g
          s).motion_extractor_).snd = false →
      MotionSampleApplication.OnGui env g s =
        (true, MotionSampleApplication.guiMotionControlStep g
          (MotionSampleApplication.guiControllerStep g s))) := by
  refine ⟨applySettingsWidgets_changed_iff, ?_, ?_⟩
  · intro env g s h
    unfold MotionSampleApplication.OnGui guiRebuildState
    simp only [h]
    by_cases hf : (MotionSampleApplication.ExtractMotion env
        { MotionSampleApplication.guiControllerStep g s with
          motion_extractor_ :=
            (MotionSampleApplication.applySettingsWidgets g
              (MotionSampleApplication.guiControllerStep g
                s).motion_extractor_).fst }).fst = true
    · simp [hf]
    · rw [Bool.not_eq_true] at hf
      simp [hf]
  · intro env g s h
    have hfst : (MotionSampleApplication.applySettingsWidgets g
        (MotionSampleApplication.guiControllerStep g
          s).motion_extractor_).fst =
        (MotionSampleApplication.guiControllerStep g s).motion_extractor_ := by
      by_contra hne
      have := (applySettingsWidgets_changed_iff g
        (MotionSampleApplication.guiControllerStep g
          s).motion_extractor_).2 hne
      rw [h] at this
      exact Bool.false_ne_true this
    unfold MotionSampleApplication.OnGui
    simp only [h, hfst]
    simp

/-- Witness for C6: a concrete settings click makes `OnGui` install the
re-extraction result; a concrete frame with no settings interaction leaves
the GUI result equal to the pure widget composition even under an
environment whose extraction pipeline would fail. -/
theorem C6_witness :
    MotionSampleApplication.OnGui egEnv egChangedGui egState =
      (true, MotionSampleApplication.guiMotionControlStep egChangedGui
        (MotionSampleApplication.ExtractMotion egEnv
          (guiRebuildState egChangedGui egState)).snd) ∧
    MotionSampleApplication.OnGui egEnvAnimOptFail egInertGui egState =
      (true, MotionSampleApplication.guiMotionControlStep egInertGui
        (MotionSampleApplication.guiControllerStep egInertGui egState)) := by
  constructor
  · rw [C6_settings_write_triggers_extraction.2.1 egEnv egChangedGui egState
      (by decide)]
    decide
  · exact C6_settings_write_triggers_extraction.2.2 egEnvAnimOptFail
      egInertGui egState (by decide)

/-- C7: every successful `ExtractMotion` installs as `motion_track_` exactly
the `TrackBuilder` outputs of the `TrackOptimizer` outputs of the raw
extracted tracks, and as `animation_` exactly the `AnimationBuilder` output
of the `AnimationOptimizer` output of the baked animation: the raw extractor
output is never installed directly. -/
theorem C7_optimize_then_build (env : ExtractionSampleEnv) (s : MotionState)
    (h : (MotionSampleApplication.ExtractMotion env s).fst = true) :
    ∃ rawPos rawRot baked posOpt rotOpt bakedOpt,
      env.motionExtractorRun s.motion_extractor_ s.raw_animation_
        s.skeleton_ = some (rawPos, rawRot, baked) ∧
      env.trackOptimizerF3 rawPos = some posOpt ∧
      env.trackOptimizerQuat rawRot = some rotOpt ∧
      env.trackBuilderF3 posOpt = some
        (MotionSampleApplication.ExtractMotion env
          s).snd.motion_track_.position ∧
      env.trackBuilderQuat rotOpt = some
        (MotionSampleApplication.ExtractMotion env
          s).snd.motion_track_.rotation ∧
      env.animOptimizerRun baked s.skeleton_ = some bakedOpt ∧
      env.animBuilderRun bakedOpt = some
        (MotionSampleApplication.ExtractMotion env s).snd.animation_ := by
  cases hx : env.motionExtractorRun s.motion_extractor_ s.raw_animation_
      s.skeleton_ with
  | none => simp [MotionSampleApplication.ExtractMotion, hx] at h
  | some v =>
    obtain ⟨rawPos, rawRot, baked⟩ := v
    cases h1 : env.trackOptimizerF3 rawPos with
    | none => simp [MotionSampleApplication.ExtractMotion, hx, h1] at h
    | some posOpt =>
      cases h2 : env.trackOptimizerQuat rawRot with
      | none => simp [MotionSampleApplication.ExtractMotion, hx, h1, h2] at h
      | some rotOpt =>
        cases h3 : env.trackBuilderF3 posOpt with
        | none =>
          cases h4 : env.trackBuilderQuat rotOpt <;>
            simp [MotionSampleApplication.ExtractMotion, hx, h1, h2, h3,
              h4] at h
        | some ptrack =>
          cases h4 : env.trackBuilderQuat rotOpt with
          | none =>
            simp [MotionSampleApplication.ExtractMotion, hx, h1, h2, h3,
              h4] at h
          | some rtrack =>
            cases h5 : env.animOptimizerRun baked s.skeleton_ with
            | none =>
              simp [MotionSampleApplication.ExtractMotion, hx, h1, h2, h3,
                h4, h5] at h
            | some bakedOpt =>
              cases h6 : env.animBuilderRun bakedOpt with
              | none =>
                simp [MotionSampleApplication.ExtractMotion, hx, h1, h2, h3,
                  h4, h5, h6] at h
              | some anim =>
                refine ⟨rawPos, rawRot, baked, posOpt, rotOpt, bakedOpt,
                  ?_, ?_, ?_, ?_, ?_, ?_, ?_⟩ <;>
                  simp [MotionSampleApplication.ExtractMotion, hx, h1, h2,
                    h3, h4, h5, h6]

/-- Witness for C7: the pipeline equations at the concrete successful
environment. -/
theorem C7_witness :
    ∃ rawPos rawRot baked posOpt rotOpt bakedOpt,
      egEnv.motionExtractorRun egState.motion_extractor_
        egState.raw_animation_ egState.skeleton_ =
          some (rawPos, rawRot, baked) ∧
      egEnv.trackOptimizerF3 rawPos = some posOpt ∧
      egEnv.trackOptimizerQuat rawRot = some rotOpt ∧
      egEnv.trackBuilderF3 posOpt = some
        (MotionSampleApplication.ExtractMotion egEnv
          egState).snd.motion_track_.position ∧
      egEnv.trackBuilderQuat rotOpt = some
        (MotionSampleApplication.ExtractMotion egEnv
          egState).snd.motion_track_.rotation ∧
      egEnv.animOptimizerRun baked egState.skeleton_ = some bakedOpt ∧
      egEnv.animBuilderRun bakedOpt = some
        (MotionSampleApplication.ExtractMotion egEnv
          egState).snd.animation_ :=
  C7_optimize_then_build egEnv egState (by decide)

/-- `ExtractMotion` invalidates the sampling context exactly when it
succeeds (the animation was rebuilt), and leaves it untouched otherwise. -/
theorem extractMotion_context (env : ExtractionSampleEnv) (s : MotionState) :
    (MotionSampleApplication.ExtractMotion env s).snd.context_ =
      (if (MotionSampleApplication.ExtractMotion env s).fst then
        s.context_.Invalidate
       else s.context_) := by
  cases hx : env.motionExtractorRun s.motion_extractor_ s.raw_animation_
      s.skeleton_ with
  | none => simp [MotionSampleApplication.ExtractMotion, hx]
  | some v =>
    obtain ⟨rawPos, rawRot, baked⟩ := v
    cases h1 : env.trackOptimizerF3 rawPos with
    | none => simp [MotionSampleApplication.ExtractMotion, hx, h1]
    | some posOpt =>
      cases h2 : env.trackOptimizerQuat rawRot with
      | none => simp [MotionSampleApplication.ExtractMotion, hx, h1, h2]
      | some rotOpt =>
        cases h3 : env.trackBuilderF3 posOpt with
        | none =>
          cases h4 : env.trackBuilderQuat rotOpt <;>
            simp [MotionSampleApplication.ExtractMotion, hx, h1, h2, h3, h4]
        | some ptrack =>
          cases h4 : env.trackBuilderQuat rotOpt with
          | none =>
            simp [MotionSampleApplication.ExtractMotion, hx, h1, h2, h3, h4]
          | some rtrack =>
            cases h5 : env.animOptimizerRun baked s.skeleton_ with
            | none =>
              simp [MotionSampleApplication.ExtractMotion, hx, h1, h2, h3,
                h4, h5]
            | some bakedOpt =>
              cases h6 : env.animBuilderRun bakedOpt <;>
                simp [MotionSampleApplication.ExtractMotion, hx, h1, h2, h3,
                  h4, h5, h6]

/-- The extraction sample's `OnGui` never changes the sampling context's
size (a rebuild only invalidates it). -/
theorem onGui_context_size (env : ExtractionSampleEnv) (g : GuiInput)
    (s : MotionState) :
    (MotionSampleApplication.OnGui env g s).snd.context_.size =
      s.context_.size := by
  have hcs := (guiControllerStep_preserves g s).2.2.2
  unfold MotionSampleApplication.OnGui
  by_cases hw : (MotionSampleApplication.applySettingsWidgets g
      (MotionSampleApplication.guiControllerStep g
        s).motion_extractor_).snd = true
  · simp only [hw]
    generalize hS : ({ MotionSampleApplication.guiControllerStep g s with
      motion_extractor_ :=
        (MotionSampleApplication.applySettingsWidgets g
          (MotionSampleApplication.guiControllerStep g
            s).motion_extractor_).fst } : MotionState) = s1
    have h1 : s1.context_ = s.context_ := by
      rw [← hS]
      exact hcs
    have h2 := extractMotion_context env s1
    rcases hr : MotionSampleApplication.ExtractMotion env s1 with ⟨ok, s2⟩
    rw [hr] at h2
    cases ok with
    | false =>
      simp only at h2
      simp [h2, h1]
    | true =>
      simp only [if_true] at h2
      have hmc : ∀ s3, (MotionSampleApplication.guiMotionControlStep g
          s3).context_ = s3.context_ :=
        fun s3 => (guiMotionControlStep_preserves g s3).2.2.2
      simp [hmc, h2, SamplingContext.Invalidate, h1]
  · rw [Bool.not_eq_true] at hw
    simp only [hw]
    have hmc : ∀ s1, (MotionSampleApplication.guiMotionControlStep g
        s1).context_ = s1.context_ :=
      fun s1 => (guiMotionControlStep_preserves g s1).2.2.2
    simp only [Bool.false_and, Bool.false_eq_true, if_false, hmc]
    simp [hcs]

/-- C8: the sampling-context lifecycle.  (i) A successful `ExtractMotion`
(the animation was rebuilt) leaves the context equal to `Invalidate` of the
previous context — invalidated before any later pose-sampling call — and a
failing one leaves it untouched; (ii) `Invalidate` marks the context and
preserves its size; (iii) neither sample's `OnUpdate` ever changes the
context, and the extraction sample's `OnGui` never changes its size; (iv)
the only sizing is `OnInitialize`'s: on success the context is exactly
`Resize` of the skeleton's joint count. -/
theorem C8_context_lifecycle :
    (∀ (env : ExtractionSampleEnv) (s : MotionState),
      (MotionSampleApplication.ExtractMotion env s).fst = true →
      (MotionSampleApplication.ExtractMotion env s).snd.context_ =
        s.context_.Invalidate) ∧
    (∀ (env : ExtractionSampleEnv) (s : MotionState),
      (MotionSampleApplication.ExtractMotion env s).fst = false →
      (MotionSampleApplication.ExtractMotion env s).snd.context_ =
        s.context_) ∧
    (∀ c : SamplingContext,
      (SamplingContext.Invalidate c).size = c.size ∧
      (SamplingContext.Invalidate c).invalidated = true) ∧
    (∀ (env : ExtractionSampleEnv) (s : MotionState) (dt : Rat),
      (MotionSampleApplication.OnUpdate env s dt).snd.context_ =
        s.context_) ∧
    (∀ (env : PlaybackSampleEnv) (s : PlaybackState) (dt : Rat),
      (MotionPlaybackSampleApplication.OnUpdate env s dt).snd.context_ =
        s.context_) ∧
    (∀ (env : ExtractionSampleEnv) (g : GuiInput) (s : MotionState),
      (MotionSampleApplication.OnGui env g s).snd.context_.size =
        s.context_.size) ∧
    (∀ (env : ExtractionSampleEnv) (s : MotionState),
      (MotionSampleApplication.OnInitialize env s).fst = true →
      (MotionSampleApplication.OnInitialize env s).snd.context_ =
        SamplingContext.Resize
          (MotionSampleApplication.OnInitialize
            env s).snd.skeleton_.num_joints) := by
  refine ⟨?_, ?_, ?_, ?_, ?_, onGui_context_size, ?_⟩
  · intro env s h
    have h2 := extractMotion_context env s
    rw [h] at h2
    simpa using h2
  · intro env s h
    have h2 := extractMotion_context env s
    rw [h] at h2
    simpa using h2
  · intro c
    exact ⟨rfl, rfl⟩
  · intro env s dt
    exact (onUpdate_preserves env s dt).2.2.2.1
  · intro env s dt
    exact (playback_onUpdate_preserves env s dt).2.2.1
  · intro env s h
    unfold MotionSampleApplication.OnInitialize at h ⊢
    cases hsk : env.loadSkeleton with
    | none => rw [hsk] at h; simp at h
    | some skeleton =>
      cases hraw : env.loadRawAnimation with
      | none => rw [hsk, hraw] at h; simp at h
      | some raw =>
        simp only [hsk, hraw] at h
        rcases hr : MotionSampleApplication.ExtractMotion env
            (MotionSampleApplication.loadedState s skeleton raw) with
          ⟨ok, s3⟩
        rw [hr] at h
        cases ok with
        | false => simp at h
        | true =>
          by_cases hmm : s3.skeleton_.num_joints ≠ s3.animation_.num_tracks
          · simp [hmm] at h
          · rw [not_not] at hmm
            simp [hr, hmm]

/-- Witness for C8: at the concrete successful environment, `ExtractMotion`
invalidates the context preserving its size, and `OnInitialize` sizes it to
the skeleton's four joints. -/
theorem C8_witness :
    (MotionSampleApplication.ExtractMotion egEnv egState).snd.context_ =
      egState.context_.Invalidate ∧
    (MotionSampleApplication.OnInitialize egEnv egState).snd.context_ =
      SamplingContext.Resize
        (MotionSampleApplication.OnInitialize
          egEnv egState).snd.skeleton_.num_joints := by
  exact ⟨C8_context_lifecycle.1 egEnv egState (by decide),
    C8_context_lifecycle.2.2.2.2.2.2 egEnv egState (by decide)⟩

/-- C9: in the playback sample, whenever the accumulator update succeeds the
character transform is composed with `FromAffine` whose scale argument is
always the accumulated transform's scale — the apply toggles substitute only
the translation (with zero) and the rotation (with identity), never the
scale — and this holds whatever the outcome of the later pose-sampling and
local-to-model stages. -/
theorem C9_scale_always_applied (env : PlaybackSampleEnv)
    (s : PlaybackState) (dt : Rat) (accumulator : MotionAccumulator)
    (ha : env.accumulatorUpdate s.motion_accumulator_ s.motion_track_
      (env.controllerUpdate s.controller_ s.animation_ dt).snd.time_ratio
      (env.controllerUpdate s.controller_ s.animation_ dt).fst =
        some accumulator) :
    (MotionPlaybackSampleApplication.OnUpdate env s dt).snd.transform_ =
      Float4x4.fromAffine
        (if s.apply_motion_position_ then accumulator.transform.translation
         else Float3.zero)
        (if s.apply_motion_rotation_ then accumulator.transform.rotation
         else Quaternion.identity)
        accumulator.transform.scale := by
  unfold MotionPlaybackSampleApplication.OnUpdate
  simp only [ha]
  cases hs : env.samplingJobRun s.animation_ s.context_
      (env.controllerUpdate s.controller_ s.animation_ dt).snd.time_ratio
      s.locals_.length with
  | none => simp [hs]
  | some locals =>
    cases hm : env.localToModelRun s.skeleton_ locals s.models_.length <;>
      simp [hs, hm]

/-- Witness for C9: at the concrete environment the transform carries the
accumulated scale. -/
theorem C9_witness :
    (MotionPlaybackSampleApplication.OnUpdate egPEnv egPState
        1).snd.transform_ =
      Float4x4.fromAffine egAccumulated.translation egAccumulated.rotation
        egAccumulated.scale := by
  have h := C9_scale_always_applied egPEnv egPState 1 ⟨egAccumulated, 0⟩
    (by decide)
  simpa using h

/-- The pose-sampling tail of the extraction tick consults only the
pose-sampling and local-to-model collaborators. -/
theorem onUpdateAnim_env_agnostic (env env' : ExtractionSampleEnv)
    (hs : env.samplingJobRun = env'.samplingJobRun)
    (hm : env.localToModelRun = env'.localToModelRun) :
    MotionSampleApplication.OnUpdateAnim env =
      MotionSampleApplication.OnUpdateAnim env' := by
  funext s
  unfold MotionSampleApplication.OnUpdateAnim
  rw [hs, hm]

/-- The rotation step consults only the quaternion-track sampler and the
tail collaborators. -/
theorem onUpdateRotation_env_agnostic (env env' : ExtractionSampleEnv)
    (hq : env.quatTrackSample = env'.quatTrackSample)
    (hs : env.samplingJobRun = env'.samplingJobRun)
    (hm : env.localToModelRun = env'.localToModelRun) :
    MotionSampleApplication.OnUpdateRotation env =
      MotionSampleApplication.OnUpdateRotation env' := by
  funext s
  unfold MotionSampleApplication.OnUpdateRotation
  rw [hq, onUpdateAnim_env_agnostic env env' hs hm]

/-- When the rotation toggle is off the rotation step does not consult the
quaternion-track sampler at all. -/
theorem onUpdateRotation_disabled_agnostic (env env' : ExtractionSampleEnv)
    (s : MotionState) (hb : s.apply_motion_rotation_ = false)
    (hs : env.samplingJobRun = env'.samplingJobRun)
    (hm : env.localToModelRun = env'.localToModelRun) :
    MotionSampleApplication.OnUpdateRotation env s =
      MotionSampleApplication.OnUpdateRotation env' s := by
  unfold MotionSampleApplication.OnUpdateRotation
  simp only [hb, Bool.false_eq_true, if_false,
    onUpdateAnim_env_agnostic env env' hs hm]

/-- When the rotation toggle is off the whole position step (and tick tail)
does not consult the quaternion-track sampler. -/
theorem onUpdatePosition_norot_agnostic (env env' : ExtractionSampleEnv)
    (s : MotionState) (hb : s.apply_motion_rotation_ = false)
    (hf : env.float3TrackSample = env'.float3TrackSample)
    (hs : env.samplingJobRun = env'.samplingJobRun)
    (hm : env.localToModelRun = env'.localToModelRun) :
    MotionSampleApplication.OnUpdatePosition env s =
      MotionSampleApplication.OnUpdatePosition env' s := by
  unfold MotionSampleApplication.OnUpdatePosition
  rw [hf]
  by_cases hp : s.apply_motion_position_ = true
  · rw [if_pos hp, if_pos hp]
    cases hfs : env'.float3TrackSample s.motion_track_.position
        s.controller_.time_ratio with
    | none => rfl
    | some position =>
      exact onUpdateRotation_disabled_agnostic env env'
        { s with transform_ :=
            s.transform_.mul (Float4x4.translation position) } hb hs hm
  · rw [if_neg hp, if_neg hp]
    exact onUpdateRotation_disabled_agnostic env env' s hb hs hm

/-- C10: in the extraction sample the character transform is recomputed from
identity every tick with no accumulation.  (i) The tick's result does not
depend on the previous `transform_`; (ii) with the position toggle off the
tick is independent of the position-track sampler (the track is never
sampled), and (iii) likewise for rotation; (iv) with both toggles off every
successful update leaves `transform_` equal to the identity; (v) with both
toggles on and both samplers succeeding at the new time ratio, `transform_`
is exactly identity times the sampled translation times the sampled
rotation. -/
theorem C10_transform_recomputed_each_tick :
    (∀ (env : ExtractionSampleEnv) (s : MotionState) (dt : Rat)
        (t : Float4x4),
      MotionSampleApplication.OnUpdate env { s with transform_ := t } dt =
        MotionSampleApplication.OnUpdate env s dt) ∧
    (∀ (env : ExtractionSampleEnv)
        (f f' : Float3Track → Rat → Option Float3) (s : MotionState)
        (dt : Rat),
      s.apply_motion_position_ = false →
      MotionSampleApplication.OnUpdate
          { env with float3TrackSample := f } s dt =
        MotionSampleApplication.OnUpdate
          { env with float3TrackSample := f' } s dt) ∧
    (∀ (env : ExtractionSampleEnv)
        (q q' : QuaternionTrack → Rat → Option Quaternion) (s : MotionState)
        (dt : Rat),
      s.apply_motion_rotation_ = false →
      MotionSampleApplication.OnUpdate
          { env with quatTrackSample := q } s dt =
        MotionSampleApplication.OnUpdate
          { env with quatTrackSample := q' } s dt) ∧
    (∀ (env : ExtractionSampleEnv) (s : MotionState) (dt : Rat),
      s.apply_motion_position_ = false →
      s.apply_motion_rotation_ = false →
      (MotionSampleApplication.OnUpdate env s dt).fst = true →
      (MotionSampleApplication.OnUpdate env s dt).snd.transform_ =
        Float4x4.identity) ∧
    (∀ (env : ExtractionSampleEnv) (s : MotionState) (dt : Rat)
        (p : Float3) (q : Quaternion),
      s.apply_motion_position_ = true →
      s.apply_motion_rotation_ = true →
      env.float3TrackSample s.motion_track_.position
        (env.controllerUpdate s.controller_ s.animation_
          dt).snd.time_ratio = some p →
      env.quatTrackSample s.motion_track_.rotation
        (env.controllerUpdate s.controller_ s.animation_
          dt).snd.time_ratio = some q →
      (MotionSampleApplication.OnUpdate env s dt).snd.transform_ =
        (Float4x4.identity.mul (Float4x4.translation p)).mul
          (Float4x4.fromQuaternion q)) := by
  refine ⟨?_, ?_, ?_, ?_, ?_⟩
  · intro env s dt t
    rfl
  · intro env f f' s dt hb
    unfold MotionSampleApplication.OnUpdate
      MotionSampleApplication.OnUpdatePosition
    simp only [hb, Bool.false_eq_true, if_false]
    exact congrFun (onUpdateRotation_env_agnostic
      { env with float3TrackSample := f }
      { env with float3TrackSample := f' } rfl rfl rfl) _
  · intro env q q' s dt hb
    unfold MotionSampleApplication.OnUpdate
    exact onUpdatePosition_norot_agnostic
      { env with quatTrackSample := q }
      { env with quatTrackSample := q' } _ hb rfl rfl rfl
  · intro env s dt hp hr _
    have e1 : MotionSampleApplication.OnUpdate env s dt =
        MotionSampleApplication.OnUpdatePosition env
          { s with
            controller_ :=
              (env.controllerUpdate s.controller_ s.animation_ dt).snd,
            transform_ := Float4x4.identity } := rfl
    rw [e1,
      onUpdatePosition_skip env
        { s with
          controller_ :=
            (env.controllerUpdate s.controller_ s.animation_ dt).snd,
          transform_ := Float4x4.identity } hp,
      onUpdateRotation_skip env
        { s with
          controller_ :=
            (env.controllerUpdate s.controller_ s.animation_ dt).snd,
          transform_ := Float4x4.identity } hr]
    exact (onUpdateAnim_preserves env
      { s with
        controller_ :=
          (env.controllerUpdate s.controller_ s.animation_ dt).snd,
        transform_ := Float4x4.identity }).2.2.2.2.2.2.1
  · intro env s dt p q hp hr hfp hfq
    have e1 : MotionSampleApplication.OnUpdate env s dt =
        MotionSampleApplication.OnUpdatePosition env
          { s with
            controller_ :=
              (env.controllerUpdate s.controller_ s.animation_ dt).snd,
            transform_ := Float4x4.identity } := rfl
    rw [e1,
      onUpdatePosition_sample env
        { s with
          controller_ :=
            (env.controllerUpdate s.controller_ s.animation_ dt).snd,
          transform_ := Float4x4.identity } hp p hfp,
      onUpdateRotation_sample env
        { s with
          controller_ :=
            (env.controllerUpdate s.controller_ s.animation_ dt).snd,
          transform_ := Float4x4.identity.mul (Float4x4.translation p) }
        hr q hfq]
    exact (onUpdateAnim_preserves env
      { s with
        controller_ :=
          (env.controllerUpdate s.controller_ s.animation_ dt).snd,
        transform_ :=
          (Float4x4.identity.mul (Float4x4.translation p)).mul
            (Float4x4.fromQuaternion q) }).2.2.2.2.2.2.1

/-- Witness for C10: with both toggles off a concrete successful tick leaves
the transform at identity; with both on it composes exactly the concrete
sampled translation and rotation from the identity. -/
theorem C10_witness :
    (MotionSampleApplication.OnUpdate egEnv
        { egState with
          apply_motion_position_ := false,
          apply_motion_rotation_ := false } 1).snd.transform_ =
      Float4x4.identity ∧
    (MotionSampleApplication.OnUpdate egEnv egState 1).snd.transform_ =
      (Float4x4.identity.mul (Float4x4.translation ⟨1, 2, 3⟩)).mul
        (Float4x4.fromQuaternion ⟨0, 0, 0, 1⟩) := by
  exact ⟨C10_transform_recomputed_each_tick.2.2.2.1 egEnv
      { egState with
        apply_motion_position_ := false,
        apply_motion_rotation_ := false } 1 rfl rfl (by decide),
    C10_transform_recomputed_each_tick.2.2.2.2 egEnv egState 1 ⟨1, 2, 3⟩
      ⟨0, 0, 0, 1⟩ rfl rfl (by decide) (by decide)⟩

end Ozz
